import Mathlib

/-!
# Verification of the `generic_camera_asi` device-handle layer

A shallow embedding of the ASI camera wrapper (`asihandle.rs`,
`zwo_ffi_wrapper.rs`, `asicamera_2.rs`).  The native SDK is modelled as an
oracle (`NativeEnv`) giving the return code and out-parameters of each
foreign call; every embedded operation returns its result, the successor
state, and the list of native calls it issued, so that claims about
"no native call is made" or about call order are statements about the
trace.  Machine integers are modelled as `Int`/`Nat` (the values involved
are far from the 32/64-bit boundaries), `f64` arithmetic is modelled
exactly over `Rat` with the Rust saturating-truncation cast made explicit,
and wall-clock/monotonic timestamps are modelled as `Nat` instants supplied
by the environment.  Diagnostic message strings (the `format!` payloads of
`GeneralError` and friends) are not modelled and appear as `""`.
-/

deriving instance DecidableEq for Except

/-! ## Vendor SDK constants

The `zwo_ffi` module is generated by bindgen from the vendor header
`ASICamera2.h`; the constants below are the values of the vendor enums
(`ASI_ERROR_CODE`, `ASI_IMG_TYPE`, `ASI_EXPOSURE_STATUS`, `ASI_FLIP_STATUS`,
`ASI_BOOL`), which are sequential as declared in that header. -/

def ASI_ERROR_CODE_ASI_SUCCESS : Nat := 0

def ASI_ERROR_CODE_ASI_ERROR_INVALID_INDEX : Nat := 1

def ASI_ERROR_CODE_ASI_ERROR_INVALID_ID : Nat := 2

def ASI_ERROR_CODE_ASI_ERROR_INVALID_CONTROL_TYPE : Nat := 3

def ASI_ERROR_CODE_ASI_ERROR_CAMERA_CLOSED : Nat := 4

def ASI_ERROR_CODE_ASI_ERROR_CAMERA_REMOVED : Nat := 5

def ASI_ERROR_CODE_ASI_ERROR_INVALID_PATH : Nat := 6

def ASI_ERROR_CODE_ASI_ERROR_INVALID_FILEFORMAT : Nat := 7

def ASI_ERROR_CODE_ASI_ERROR_INVALID_SIZE : Nat := 8

def ASI_ERROR_CODE_ASI_ERROR_INVALID_IMGTYPE : Nat := 9

def ASI_ERROR_CODE_ASI_ERROR_OUTOF_BOUNDARY : Nat := 10

def ASI_ERROR_CODE_ASI_ERROR_TIMEOUT : Nat := 11

def ASI_ERROR_CODE_ASI_ERROR_INVALID_SEQUENCE : Nat := 12

def ASI_ERROR_CODE_ASI_ERROR_BUFFER_TOO_SMALL : Nat := 13

def ASI_ERROR_CODE_ASI_ERROR_VIDEO_MODE_ACTIVE : Nat := 14

def ASI_ERROR_CODE_ASI_ERROR_EXPOSURE_IN_PROGRESS : Nat := 15

def ASI_ERROR_CODE_ASI_ERROR_GENERAL_ERROR : Nat := 16

def ASI_ERROR_CODE_ASI_ERROR_INVALID_MODE : Nat := 17

def ASI_IMG_TYPE_ASI_IMG_RAW8 : Int := 0

def ASI_IMG_TYPE_ASI_IMG_RGB24 : Int := 1

def ASI_IMG_TYPE_ASI_IMG_RAW16 : Int := 2

def ASI_IMG_TYPE_ASI_IMG_Y8 : Int := 3

def ASI_IMG_TYPE_ASI_IMG_END : Int := -1

def ASI_EXPOSURE_STATUS_ASI_EXP_IDLE : Nat := 0

def ASI_EXPOSURE_STATUS_ASI_EXP_WORKING : Nat := 1

def ASI_EXPOSURE_STATUS_ASI_EXP_SUCCESS : Nat := 2

def ASI_EXPOSURE_STATUS_ASI_EXP_FAILED : Nat := 3

def ASI_FLIP_STATUS_ASI_FLIP_NONE : Int := 0

def ASI_FLIP_STATUS_ASI_FLIP_HORIZ : Int := 1

def ASI_FLIP_STATUS_ASI_FLIP_VERT : Int := 2

def ASI_FLIP_STATUS_ASI_FLIP_BOTH : Int := 3

def ASI_BOOL_ASI_FALSE : Int := 0

def ASI_BOOL_ASI_TRUE : Int := 1

/-! ## Types over the generic-camera interface

`generic_camera` (and the older `cameraunit`) are external crates consumed
by this repository; the shapes below are modelled from the spec's data
model (§3, §7): generic control identifiers, property descriptors with
limits, property values, and the closed error taxonomies. -/

/-- Modelled from the spec: `generic_camera::GenCamPixelBpp` pixel bit
depths; the catalog exposes only 8-bit and 16-bit raw formats, other
variants exist in the external crate (one is included so that the
wrong-variant paths are inhabited). -/
inductive GenCamPixelBpp where
  | bpp8
  | bpp16
  | bpp24
  deriving DecidableEq, Repr

/-- Modelled from the spec: device-level generic control identifiers. -/
inductive DeviceCtrl where
  | temperature
  | coolerPower
  | coolerTemp
  | coolerEnable
  | highSpeedMode
  | custom (name : String)
  deriving DecidableEq, Repr

/-- Modelled from the spec: sensor-level generic control identifiers. -/
inductive SensorCtrl where
  | pixelFormat
  | reverseX
  | reverseY
  | shutterMode
  deriving DecidableEq, Repr

/-- Modelled from the spec: analog generic control identifiers. -/
inductive AnalogCtrl where
  | gain
  | gamma
  deriving DecidableEq, Repr

/-- Modelled from the spec: exposure generic control identifiers. -/
inductive ExposureCtrl where
  | exposureTime
  | autoMaxExposure
  | autoTargetBrightness
  deriving DecidableEq, Repr

/-- Modelled from the spec: the tagged generic control identifier
`generic_camera::GenCamCtrl`. -/
inductive GenCamCtrl where
  | device (c : DeviceCtrl)
  | sensor (c : SensorCtrl)
  | analog (c : AnalogCtrl)
  | exposure (c : ExposureCtrl)
  deriving DecidableEq, Repr

/-- Modelled from the spec: the tag of a property variant, used in
typed property errors. -/
inductive PropertyType where
  | int
  | float
  | bool
  | duration
  | pixelFmt
  | enumStr
  deriving DecidableEq, Repr

/-- Modelled from the spec: `generic_camera::PropertyValue`.  Durations are
microseconds; floats are modelled exactly as rationals. -/
inductive PropertyValue where
  | int (v : Int)
  | float (v : Rat)
  | bool (v : Bool)
  | duration (micros : Nat)
  | pixelFmt (v : GenCamPixelBpp)
  | enumStr (v : String)
  deriving DecidableEq, Repr

def PropertyValue.ptype : PropertyValue → PropertyType
  | .int _ => .int
  | .float _ => .float
  | .bool _ => .bool
  | .duration _ => .duration
  | .pixelFmt _ => .pixelFmt
  | .enumStr _ => .enumStr

/-- Modelled from the spec: the typed property-validation error
(`generic_camera::PropertyError`); the variants used by this repository. -/
inductive PropertyError where
  | notFound
  | valueNotSupported
  | outOfBounds
  | invalidControlType (expected received : PropertyType)
  deriving DecidableEq, Repr

/-- Modelled from the spec: `generic_camera::PropertyLims`, a tagged
variant of range+step+default or enumerated-set property limits (§3). -/
inductive PropertyLims where
  | int (min max step default : Int)
  | float (min max step default : Rat)
  | bool (default : Bool)
  | duration (min max step default : Nat)
  | pixelFmt (variants : List GenCamPixelBpp) (default : GenCamPixelBpp)
  | enumStr (variants : List String) (default : String)
  deriving DecidableEq, Repr

def PropertyLims.ptype : PropertyLims → PropertyType
  | .int _ _ _ _ => .int
  | .float _ _ _ _ => .float
  | .bool _ => .bool
  | .duration _ _ _ _ => .duration
  | .pixelFmt _ _ => .pixelFmt
  | .enumStr _ _ => .enumStr

/-- Modelled from the spec: `generic_camera::Property` — limits plus the
supports-auto and read-only flags; built once at device open, read for
validation. -/
structure Property where
  lims : PropertyLims
  autoSupported : Bool
  readOnly : Bool
  deriving DecidableEq, Repr

def Property.new (lims : PropertyLims) (autoSupported readOnly : Bool) : Property :=
  ⟨lims, autoSupported, readOnly⟩

/-- Modelled from the spec (§4.4, P3): `Property::validate` accepts a value
of the limits' own variant lying within the declared range (inclusive) or
inside the declared variant set, and rejects out-of-range values and
wrong-variant values with a typed error. -/
def Property.validate (p : Property) (v : PropertyValue) : Except PropertyError Unit :=
  match p.lims, v with
  | .int lo hi _ _, .int x =>
      if lo ≤ x ∧ x ≤ hi then .ok () else .error .outOfBounds
  | .float lo hi _ _, .float x =>
      if lo ≤ x ∧ x ≤ hi then .ok () else .error .outOfBounds
  | .bool _, .bool _ => .ok ()
  | .duration lo hi _ _, .duration x =>
      if lo ≤ x ∧ x ≤ hi then .ok () else .error .outOfBounds
  | .pixelFmt variants _, .pixelFmt x =>
      if x ∈ variants then .ok () else .error .valueNotSupported
  | .enumStr variants _, .enumStr x =>
      if x ∈ variants then .ok () else .error .valueNotSupported
  | lims, v => .error (.invalidControlType lims.ptype v.ptype)

/-- Modelled from the spec: `TryInto<i64> for &PropertyValue` — variant
extraction only (the conversion has no access to any limits). -/
def PropertyValue.toInt64 : PropertyValue → Except PropertyError Int
  | .int x => .ok x
  | v => .error (.invalidControlType .int v.ptype)

/-- Modelled from the spec: `TryInto<f64> for &PropertyValue`. -/
def PropertyValue.toFloat64 : PropertyValue → Except PropertyError Rat
  | .float x => .ok x
  | v => .error (.invalidControlType .float v.ptype)

/-- Modelled from the spec: `TryInto<bool> for &PropertyValue`. -/
def PropertyValue.toBoolVal : PropertyValue → Except PropertyError Bool
  | .bool x => .ok x
  | v => .error (.invalidControlType .bool v.ptype)

/-- Modelled from the spec: `TryInto<String> for &PropertyValue`. -/
def PropertyValue.toStringVal : PropertyValue → Except PropertyError String
  | .enumStr x => .ok x
  | v => .error (.invalidControlType .enumStr v.ptype)

/-- Modelled from the spec (§7): the closed `generic_camera::GenCamError`
taxonomy surfaced to callers.  Diagnostic strings are not modelled. -/
inductive GenCamError where
  | invalidIndex (idx : Int)
  | invalidId (id : Int)
  | invalidControlType (msg : String)
  | invalidImageType (msg : String)
  | invalidFormat (msg : String)
  | cameraClosed
  | cameraRemoved
  | exposureInProgress
  | exposureNotStarted
  | exposureFailed (reason : String)
  | timedOut
  | propertyError (control : GenCamCtrl) (error : PropertyError)
  | accessViolation
  | generalError (msg : String)
  deriving DecidableEq, Repr

/-- Modelled from the spec (§4.4): `generic_camera::GenCamState`. -/
inductive GenCamState where
  | idle
  | exposing (elapsed : Option Nat)
  | exposureFinished
  | errored (e : GenCamError)
  deriving DecidableEq, Repr

/-! ## `zwo_ffi_wrapper.rs`: error mapper, control types, pixel formats -/

/-- `zwo_ffi_wrapper::AsiControlType` (the `#[repr(i32)]` enum). -/
inductive AsiControlType where
  | gain
  | exposure
  | gamma
  | whiteBalR
  | whiteBalB
  | bwOvld
  | overclock
  | temperature
  | flip
  | autoExpMax
  | autoExpTarget
  | autoExpMaxGain
  | hardwareBin
  | highSpeedMode
  | coolerPowerPercent
  | targetTemp
  | coolerOn
  | monoBin
  | fanOn
  | patternAdjust
  | antiDewHeater
  | invalid
  deriving DecidableEq, Repr

/-- `zwo_ffi_wrapper::AsiError`: each variant carries the optional native
call name and argument string used for diagnostics. -/
inductive AsiError where
  | invalidIndex (src args : Option String)
  | invalidId (src args : Option String)
  | invalidControlType (src args : Option String)
  | cameraClosed (src args : Option String)
  | cameraRemoved (src args : Option String)
  | invalidPath (src args : Option String)
  | invalidFileFormat (src args : Option String)
  | invalidSize (src args : Option String)
  | invalidImage (src args : Option String)
  | outOfBounds (src args : Option String)
  | timeout (src args : Option String)
  | invalidSequence (src args : Option String)
  | bufferTooSmall (src args : Option String)
  | videoModeActive (src args : Option String)
  | exposureInProgress (src args : Option String)
  | generalError (src args : Option String)
  | invalidMode (src args : Option String)
  deriving DecidableEq, Repr

/-- `impl From<(u32, Option<T>, Option<T>)> for AsiError`
(zwo_ffi_wrapper.rs): translate a native status code, keeping the optional
diagnostic call name and arguments; unrecognized codes fall to
`GeneralError`. -/
def AsiError.fromCode (code : Nat) (src args : Option String) : AsiError :=
  if code = ASI_ERROR_CODE_ASI_ERROR_INVALID_INDEX then .invalidIndex src args
  else if code = ASI_ERROR_CODE_ASI_ERROR_INVALID_ID then .invalidId src args
  else if code = ASI_ERROR_CODE_ASI_ERROR_INVALID_CONTROL_TYPE then .invalidControlType src args
  else if code = ASI_ERROR_CODE_ASI_ERROR_CAMERA_CLOSED then .cameraClosed src args
  else if code = ASI_ERROR_CODE_ASI_ERROR_CAMERA_REMOVED then .cameraRemoved src args
  else if code = ASI_ERROR_CODE_ASI_ERROR_INVALID_PATH then .invalidPath src args
  else if code = ASI_ERROR_CODE_ASI_ERROR_INVALID_FILEFORMAT then .invalidFileFormat src args
  else if code = ASI_ERROR_CODE_ASI_ERROR_INVALID_SIZE then .invalidSize src args
  else if code = ASI_ERROR_CODE_ASI_ERROR_INVALID_IMGTYPE then .invalidImage src args
  else if code = ASI_ERROR_CODE_ASI_ERROR_OUTOF_BOUNDARY then .outOfBounds src args
  else if code = ASI_ERROR_CODE_ASI_ERROR_TIMEOUT then .timeout src args
  else if code = ASI_ERROR_CODE_ASI_ERROR_INVALID_SEQUENCE then .invalidSequence src args
  else if code = ASI_ERROR_CODE_ASI_ERROR_BUFFER_TOO_SMALL then .bufferTooSmall src args
  else if code = ASI_ERROR_CODE_ASI_ERROR_VIDEO_MODE_ACTIVE then .videoModeActive src args
  else if code = ASI_ERROR_CODE_ASI_ERROR_EXPOSURE_IN_PROGRESS then .exposureInProgress src args
  else if code = ASI_ERROR_CODE_ASI_ERROR_GENERAL_ERROR then .generalError src args
  else if code = ASI_ERROR_CODE_ASI_ERROR_INVALID_MODE then .invalidMode src args
  else .generalError src args

/-- The native status codes with a dedicated `AsiError` variant. -/
def asiKnownErrorCodes : List Nat :=
  [ASI_ERROR_CODE_ASI_ERROR_INVALID_INDEX, ASI_ERROR_CODE_ASI_ERROR_INVALID_ID,
   ASI_ERROR_CODE_ASI_ERROR_INVALID_CONTROL_TYPE, ASI_ERROR_CODE_ASI_ERROR_CAMERA_CLOSED,
   ASI_ERROR_CODE_ASI_ERROR_CAMERA_REMOVED, ASI_ERROR_CODE_ASI_ERROR_INVALID_PATH,
   ASI_ERROR_CODE_ASI_ERROR_INVALID_FILEFORMAT, ASI_ERROR_CODE_ASI_ERROR_INVALID_SIZE,
   ASI_ERROR_CODE_ASI_ERROR_INVALID_IMGTYPE, ASI_ERROR_CODE_ASI_ERROR_OUTOF_BOUNDARY,
   ASI_ERROR_CODE_ASI_ERROR_TIMEOUT, ASI_ERROR_CODE_ASI_ERROR_INVALID_SEQUENCE,
   ASI_ERROR_CODE_ASI_ERROR_BUFFER_TOO_SMALL, ASI_ERROR_CODE_ASI_ERROR_VIDEO_MODE_ACTIVE,
   ASI_ERROR_CODE_ASI_ERROR_EXPOSURE_IN_PROGRESS, ASI_ERROR_CODE_ASI_ERROR_GENERAL_ERROR,
   ASI_ERROR_CODE_ASI_ERROR_INVALID_MODE]

/-- `zwo_ffi_wrapper::AsiExposureStatus`. -/
inductive AsiExposureStatus where
  | idle
  | working
  | success
  | failed
  deriving DecidableEq, Repr

/-- `impl From<ASI_EXPOSURE_STATUS> for AsiExposureStatus`: unknown status
values fall back to `Idle`. -/
def AsiExposureStatus.ofCode (v : Nat) : AsiExposureStatus :=
  if v = ASI_EXPOSURE_STATUS_ASI_EXP_IDLE then .idle
  else if v = ASI_EXPOSURE_STATUS_ASI_EXP_WORKING then .working
  else if v = ASI_EXPOSURE_STATUS_ASI_EXP_SUCCESS then .success
  else if v = ASI_EXPOSURE_STATUS_ASI_EXP_FAILED then .failed
  else .idle

/-- `zwo_ffi_wrapper::to_asibool`. -/
def to_asibool (v : Bool) : Int :=
  if v then ASI_BOOL_ASI_TRUE else ASI_BOOL_ASI_FALSE

/-- `zwo_ffi_wrapper::get_pixfmt`: walk the supported-video-format list up
to the end marker and keep only the 8-bit and 16-bit raw formats. -/
def get_pixfmt (list : List Int) (endMarker : Int) : List GenCamPixelBpp :=
  (list.takeWhile (fun x => x ≠ endMarker)).filterMap fun x =>
    if x = ASI_IMG_TYPE_ASI_IMG_RAW8 then some GenCamPixelBpp.bpp8
    else if x = ASI_IMG_TYPE_ASI_IMG_RAW16 then some GenCamPixelBpp.bpp16
    else none

/-- The default pixel format picked by the catalog builder
(`get_pixfmt(..)[0]` in `AsiHandle::new` and `get_caps`): Rust indexing of
the first element, which panics when `get_pixfmt` returned no element.
`none` here is exactly the panic case. -/
def pixfmtDefault (list : List Int) (endMarker : Int) : Option GenCamPixelBpp :=
  (get_pixfmt list endMarker).head?

/-! ## The native-call model

Each foreign call of the SDK is represented by a `NativeCall` (recorded in
traces) and its outcome is given by a `NativeEnv` oracle: the returned
status code (`0` = `ASI_SUCCESS`) together with the out-parameters. -/

inductive NativeCall where
  | startExposure (dark : Bool)
  | stopExposure
  | getControlValue (ctrl : AsiControlType)
  | setControlValue (ctrl : AsiControlType) (value : Int) (auto : Int)
  | getExpStatus
  | getStartPos
  | getROIFormat
  | setStartPos (x y : Int)
  | setROIFormat (width height bin fmt : Int)
  | setID
  | getID
  | closeCamera
  deriving DecidableEq, Repr

structure NativeEnv where
  /-- current monotonic instant, for `Instant::now`/`elapsed` -/
  now : Nat
  startExposure : Bool → Nat
  stopExposure : Nat
  /-- status code, value out-param, auto out-param -/
  getControlValue : AsiControlType → Nat × Int × Int
  setControlValue : AsiControlType → Int → Int → Nat
  /-- status code, exposure-status out-param -/
  getExpStatus : Nat × Nat
  /-- status code, x, y -/
  getStartPos : Nat × Int × Int
  /-- status code, width, height, bin, image-format -/
  getROIFormat : Nat × Int × Int × Int × Int
  setStartPos : Int → Int → Nat
  setROIFormat : Int → Int → Int → Int → Nat
  setID : Nat
  getID : Nat × String
  closeCamera : Nat

/-! ## Exact-rational model of the `f64` casts -/

/-- Truncation toward zero, the rounding of Rust's float-to-int `as` cast. -/
def ratTrunc (q : Rat) : Int :=
  if q < 0 then -(⌊-q⌋) else ⌊q⌋

/-- Rust's `as i64` cast from `f64`: truncate toward zero, saturating at
the `i64` bounds. -/
def f64toI64 (q : Rat) : Int :=
  if q < -(2 ^ 63 : Rat) then -(2 ^ 63)
  else if (2 ^ 63 : Rat) - 1 < q then 2 ^ 63 - 1
  else ratTrunc q

/-! ## `asihandle.rs`: the device handle / imager

`AsiHandle` owns the native handle plus the capture state.  `RefCell`
borrows and the `RwLock` on the start instant can fail only under
reentrant/concurrent access; those runtime borrow states are part of the
embedded state (`..Borrowed`, `startLock..`) so that the `AccessViolation`
paths of the source are represented. -/

/-- `zwo_ffi_wrapper::AsiRoi` (x, y, width, height, bin, image format). -/
structure AsiRoi where
  x : Int
  y : Int
  width : Int
  height : Int
  bin : Int
  fmt : Int
  deriving DecidableEq, Repr

/-- `asihandle::LastExposureInfo`.  The wall-clock timestamp field is not
modelled (real time); the fields the claims touch are kept. -/
structure LastExposureInfo where
  exposure : Nat
  darkframe : Bool
  gain : Option Int
  deriving DecidableEq, Repr

structure AsiState where
  handle : Int
  capturing : Bool
  /-- `shutter_open`: `none` when the camera has no mechanical shutter. -/
  shutterOpen : Option Bool
  /-- `exposure: AtomicU64`, microseconds. -/
  exposure : Nat
  /-- `gain: RefCell<Option<i64>>` contents. -/
  gain : Option Int
  /-- whether the gain `RefCell` is currently borrowed (so `try_borrow_mut` fails). -/
  gainBorrowed : Bool
  /-- `roi: RefCell<AsiRoi>` contents. -/
  roi : AsiRoi
  /-- whether the roi `RefCell` is currently borrowed. -/
  roiBorrowed : Bool
  /-- `last_exposure: RefCell<Option<LastExposureInfo>>` contents. -/
  lastExposure : Option LastExposureInfo
  /-- whether the last-exposure `RefCell` is currently borrowed. -/
  lastExpBorrowed : Bool
  /-- `start: Arc<RwLock<Option<Instant>>>` contents (monotonic instant). -/
  startInstant : Option Nat
  /-- whether `start.write()` fails (poisoned lock). -/
  startLockWriteFails : Bool
  /-- whether `start.read()`/`try_write()` fails. -/
  startLockReadFails : Bool
  hasCooler : Bool
  /-- the control catalog `caps`: generic control id to native tag and limits. -/
  caps : GenCamCtrl → Option (AsiControlType × Property)

/-- Result of one embedded operation: the returned value or error, the
successor handle state, and the native calls issued (in order). -/
structure StepResult (α : Type) where
  result : Except GenCamError α
  state : AsiState
  trace : List NativeCall

/-- The recurring `map_err` of asihandle.rs: `CameraClosed` and
`InvalidId` keep their identity, anything else becomes `GeneralError`
(diagnostic string not modelled). -/
def mapDefaultErr (handle : Int) (code : Nat) : GenCamError :=
  match AsiError.fromCode code none none with
  | .cameraClosed _ _ => .cameraClosed
  | .invalidId _ _ => .invalidId handle
  | _ => .generalError ""

/-- The `map_err` of `zwo_ffi_wrapper::get_control_value` /
`set_control_value`: additionally maps `InvalidControlType`. -/
def mapCtrlErr (handle : Int) (code : Nat) : GenCamError :=
  match AsiError.fromCode code none none with
  | .cameraClosed _ _ => .cameraClosed
  | .invalidId _ _ => .invalidId handle
  | .invalidControlType _ _ => .invalidControlType ""
  | _ => .generalError ""

/-- The `map_err` of `AsiHandle::set_roi`: additionally maps
`InvalidControlType` and `InvalidImage`. -/
def mapRoiErr (handle : Int) (code : Nat) : GenCamError :=
  match AsiError.fromCode code none none with
  | .cameraClosed _ _ => .cameraClosed
  | .invalidId _ _ => .invalidId handle
  | .invalidControlType _ _ => .invalidControlType ""
  | .invalidImage _ _ => .invalidImageType ""
  | _ => .generalError ""

/-- `zwo_ffi_wrapper::get_control_value`: one `ASIGetControlValue` call. -/
def get_control_value (env : NativeEnv) (handle : Int) (ctrl : AsiControlType) :
    Except GenCamError (Int × Int) × List NativeCall :=
  let (code, value, auto) := env.getControlValue ctrl
  ((if code ≠ ASI_ERROR_CODE_ASI_SUCCESS then .error (mapCtrlErr handle code)
    else .ok (value, auto)),
   [.getControlValue ctrl])

/-- `zwo_ffi_wrapper::set_control_value`: one `ASISetControlValue` call. -/
def set_control_value (env : NativeEnv) (handle : Int) (ctrl : AsiControlType)
    (value : Int) (auto : Int) : Except GenCamError Unit × List NativeCall :=
  let code := env.setControlValue ctrl value auto
  ((if code ≠ ASI_ERROR_CODE_ASI_SUCCESS then .error (mapCtrlErr handle code) else .ok ()),
   [.setControlValue ctrl value auto])

/-- `AsiRoi::get`: `ASIGetStartPos` then `ASIGetROIFormat`, erroring with
the raw native code of the first failing call. -/
def AsiRoi.getCall (env : NativeEnv) : Except Nat AsiRoi × List NativeCall :=
  let (c1, x, y) := env.getStartPos
  if c1 ≠ ASI_ERROR_CODE_ASI_SUCCESS then (.error c1, [.getStartPos])
  else
    let (c2, w, h, b, f) := env.getROIFormat
    if c2 ≠ ASI_ERROR_CODE_ASI_SUCCESS then (.error c2, [.getStartPos, .getROIFormat])
    else (.ok ⟨x, y, w, h, b, f⟩, [.getStartPos, .getROIFormat])

/-- `AsiRoi::set`: `ASISetStartPos` then `ASISetROIFormat`. -/
def AsiRoi.setCall (roi : AsiRoi) (env : NativeEnv) : Except Nat Unit × List NativeCall :=
  let c1 := env.setStartPos roi.x roi.y
  if c1 ≠ ASI_ERROR_CODE_ASI_SUCCESS then (.error c1, [.setStartPos roi.x roi.y])
  else
    let c2 := env.setROIFormat roi.width roi.height roi.bin roi.fmt
    if c2 ≠ ASI_ERROR_CODE_ASI_SUCCESS then
      (.error c2, [.setStartPos roi.x roi.y, .setROIFormat roi.width roi.height roi.bin roi.fmt])
    else
      (.ok (), [.setStartPos roi.x roi.y, .setROIFormat roi.width roi.height roi.bin roi.fmt])

/-- `AsiHandle::get_roi`: native read, then update of the cached
`RefCell<AsiRoi>` (`AccessViolation` if it is borrowed). -/
def AsiHandle.get_roi (s : AsiState) (env : NativeEnv) : StepResult AsiRoi :=
  match AsiRoi.getCall env with
  | (.error c, tr) => ⟨.error (mapDefaultErr s.handle c), s, tr⟩
  | (.ok r, tr) =>
      if s.roiBorrowed then ⟨.error .accessViolation, s, tr⟩
      else ⟨.ok r, { s with roi := r }, tr⟩

/-- `AsiHandle::set_roi`: native write, then update of the cached
`RefCell<AsiRoi>`. -/
def AsiHandle.set_roi (s : AsiState) (env : NativeEnv) (roi : AsiRoi) : StepResult Unit :=
  match AsiRoi.setCall roi env with
  | (.error c, tr) => ⟨.error (mapRoiErr s.handle c), s, tr⟩
  | (.ok _, tr) =>
      if s.roiBorrowed then ⟨.error .accessViolation, s, tr⟩
      else ⟨.ok (), { s with roi := roi }, tr⟩

/-- `AsiHandle::get_gain`: lazily cached gain; a native read only when the
cache is empty. -/
def AsiHandle.get_gain (s : AsiState) (env : NativeEnv) : StepResult Int :=
  if s.gainBorrowed then ⟨.error .accessViolation, s, []⟩
  else
    match s.gain with
    | some g => ⟨.ok g, s, []⟩
    | none =>
        match get_control_value env s.handle .gain with
        | (.ok (g, _), tr) => ⟨.ok g, { s with gain := some g }, tr⟩
        | (.error e, tr) => ⟨.error e, s, tr⟩

/-- `AsiHandle::get_state_raw`: one `ASIGetExpStatus` call, unknown status
values falling back to `Idle`. -/
def AsiHandle.get_state_raw (s : AsiState) (env : NativeEnv) : StepResult AsiExposureStatus :=
  let (code, stat) := env.getExpStatus
  if code ≠ ASI_ERROR_CODE_ASI_SUCCESS then
    ⟨.error (mapDefaultErr s.handle code), s, [.getExpStatus]⟩
  else
    ⟨.ok (AsiExposureStatus.ofCode stat), s, [.getExpStatus]⟩

/-- `AsiHandle::get_state`: `Idle` immediately when the capturing flag is
clear; otherwise the native status drives the state machine. -/
def AsiHandle.get_state (s : AsiState) (env : NativeEnv) : StepResult GenCamState :=
  if !s.capturing then ⟨.ok .idle, s, []⟩
  else
    match AsiHandle.get_state_raw s env with
    | ⟨.error e, s', tr⟩ => ⟨.error e, s', tr⟩
    | ⟨.ok stat, s', tr⟩ =>
        match stat with
        | .idle => ⟨.ok (.errored .exposureNotStarted), { s' with capturing := false }, tr⟩
        | .working =>
            if s'.startLockReadFails then ⟨.error .accessViolation, s', tr⟩
            else
              match s'.startInstant with
              | some t => ⟨.ok (.exposing (some (env.now - t))), s', tr⟩
              | none => ⟨.error .exposureNotStarted, s', tr⟩
        | .success => ⟨.ok .exposureFinished, s', tr⟩
        | .failed => ⟨.error (.exposureFailed ""), { s' with capturing := false }, tr⟩

/-- `AsiHandle::image_ready`: error immediately when not capturing,
otherwise one native status poll. -/
def AsiHandle.image_ready (s : AsiState) (env : NativeEnv) : StepResult Bool :=
  if !s.capturing then ⟨.error .exposureNotStarted, s, []⟩
  else
    match AsiHandle.get_state_raw s env with
    | ⟨.error e, s', tr⟩ => ⟨.error e, s', tr⟩
    | ⟨.ok stat, s', tr⟩ => ⟨.ok (stat = .success), s', tr⟩

/-- The dark-frame flag of `AsiHandle::start_exposure`: the negation of
the tracked shutter state, `false` when there is no mechanical shutter. -/
def AsiHandle.darkframeOf (s : AsiState) : Bool :=
  match s.shutterOpen with
  | some op => !op
  | none => false

/-- `AsiHandle::start_exposure` (asihandle.rs): reject when already
capturing; set the flag; snapshot the exposure info; commit the start
instant; issue the native start call, rolling the flag back if it fails;
store the snapshot. -/
def AsiHandle.start_exposure (s : AsiState) (env : NativeEnv) : StepResult Unit :=
  if s.capturing then ⟨.error .exposureInProgress, s, []⟩
  else
    let s := { s with capturing := true }
    let darkframe := AsiHandle.darkframeOf s
    if s.roiBorrowed then ⟨.error .accessViolation, s, []⟩
    else
      let g := AsiHandle.get_gain s env
      let lastExp : LastExposureInfo :=
        { exposure := s.exposure, darkframe := darkframe, gain := g.result.toOption }
      let s := g.state
      if s.startLockWriteFails then ⟨.error .accessViolation, s, g.trace⟩
      else
        let s := { s with startInstant := some env.now }
        let code := env.startExposure darkframe
        let tr := g.trace ++ [.startExposure darkframe]
        if code ≠ ASI_ERROR_CODE_ASI_SUCCESS then
          ⟨.error (mapDefaultErr s.handle code), { s with capturing := false }, tr⟩
        else if s.lastExpBorrowed then ⟨.error .accessViolation, s, tr⟩
        else ⟨.ok (), { s with lastExposure := some lastExp }, tr⟩

/-- `AsiHandle::stop_exposure`: reject when not capturing; native stop;
the flag is cleared whether or not the native call failed. -/
def AsiHandle.stop_exposure (s : AsiState) (env : NativeEnv) : StepResult Unit :=
  if !s.capturing then ⟨.error .exposureNotStarted, s, []⟩
  else
    let code := env.stopExposure
    let res : Except GenCamError Unit :=
      if code ≠ ASI_ERROR_CODE_ASI_SUCCESS then .error (mapDefaultErr s.handle code) else .ok ()
    ⟨res, { s with capturing := false }, [.stopExposure]⟩

/-- `AsiHandle::get_flip`: read the native flip control and decompose it
into the (reverse-x, reverse-y) pair. -/
def AsiHandle.get_flip (s : AsiState) (env : NativeEnv) :
    Except GenCamError (Bool × Bool) × List NativeCall :=
  let (code, flip, _auto) := env.getControlValue .flip
  if code ≠ ASI_ERROR_CODE_ASI_SUCCESS then
    (.error (mapCtrlErr s.handle code), [.getControlValue .flip])
  else
    let out : Except GenCamError (Bool × Bool) :=
      if flip = ASI_FLIP_STATUS_ASI_FLIP_NONE then .ok (false, false)
      else if flip = ASI_FLIP_STATUS_ASI_FLIP_HORIZ then .ok (true, false)
      else if flip = ASI_FLIP_STATUS_ASI_FLIP_VERT then .ok (false, true)
      else if flip = ASI_FLIP_STATUS_ASI_FLIP_BOTH then .ok (true, true)
      else .error (.generalError "")
    (out, [.getControlValue .flip])

/-- `AsiHandle::set_flip`: compose the pair back into the native flip
control value and write it. -/
def AsiHandle.set_flip (s : AsiState) (env : NativeEnv) (flipx flipy : Bool) :
    Except GenCamError Unit × List NativeCall :=
  let flip :=
    match flipx, flipy with
    | false, false => ASI_FLIP_STATUS_ASI_FLIP_NONE
    | true, false => ASI_FLIP_STATUS_ASI_FLIP_HORIZ
    | false, true => ASI_FLIP_STATUS_ASI_FLIP_VERT
    | true, true => ASI_FLIP_STATUS_ASI_FLIP_BOTH
  let code := env.setControlValue .flip flip ASI_BOOL_ASI_FALSE
  if code ≠ ASI_ERROR_CODE_ASI_SUCCESS then
    (.error (mapCtrlErr s.handle code), [.setControlValue .flip flip ASI_BOOL_ASI_FALSE])
  else
    (.ok (), [.setControlValue .flip flip ASI_BOOL_ASI_FALSE])

/-- Modelled from the spec: the `From<u32>` conversion applied to a native
image-format code to obtain a pixel bit depth (the catalog deals only in
8-bit and 16-bit raw formats). -/
def pixBppOfImgType (fmt : Int) : GenCamPixelBpp :=
  if fmt = ASI_IMG_TYPE_ASI_IMG_RAW16 then .bpp16 else .bpp8

/-- `AsiHandle::set_property` (asihandle.rs, lines 717-877): dispatch by
generic control id through the catalog; synthetic controls (pixel format,
UUID, shutter, reverse-x/y via flip) are handled specially; the remaining
controls issue a native `ASISetControlValue`. -/
def AsiHandle.set_property (s : AsiState) (env : NativeEnv) (prop : GenCamCtrl)
    (value : PropertyValue) (auto : Bool) : StepResult Unit :=
  let autoI : Int := if auto then ASI_BOOL_ASI_TRUE else ASI_BOOL_ASI_FALSE
  match s.caps prop with
  | none => ⟨.error (.propertyError prop .notFound), s, []⟩
  | some (ctrl, lims) =>
    if ctrl = .invalid then
      -- special cases
      match prop with
      | .sensor .pixelFormat =>
          match lims.validate value with
          | .error e => ⟨.error (.propertyError prop e), s, []⟩
          | .ok _ =>
              match value with
              | .pixelFmt fmt =>
                  if s.capturing then ⟨.error .exposureInProgress, s, []⟩
                  else
                    match AsiHandle.get_roi s env with
                    | ⟨.error e, s', tr⟩ => ⟨.error e, s', tr⟩
                    | ⟨.ok roi, s', tr⟩ =>
                        match
                          (match fmt with
                           | .bpp8 => Except.ok ASI_IMG_TYPE_ASI_IMG_RAW8
                           | .bpp16 => Except.ok ASI_IMG_TYPE_ASI_IMG_RAW16
                           | _ => Except.error (GenCamError.propertyError prop .valueNotSupported))
                        with
                        | .error e => ⟨.error e, s', tr⟩
                        | .ok fmtCode =>
                            match AsiHandle.set_roi s' env { roi with fmt := fmtCode } with
                            | ⟨.error e, s'', tr'⟩ => ⟨.error e, s'', tr ++ tr'⟩
                            | ⟨.ok _, s'', tr'⟩ => ⟨.ok (), s'', tr ++ tr'⟩
              | _ => ⟨.error (.propertyError prop .valueNotSupported), s, []⟩
      | .device (.custom name) =>
          if name = "UUID" then
            match value.toStringVal with
            | .error e => ⟨.error (.propertyError prop e), s, []⟩
            | .ok _ =>
                let code := env.setID
                if code ≠ ASI_ERROR_CODE_ASI_SUCCESS then
                  ⟨.error (mapDefaultErr s.handle code), s, [.setID]⟩
                else ⟨.ok (), s, [.setID]⟩
          else ⟨.error (.propertyError prop .notFound), s, []⟩
      | .sensor .shutterMode =>
          if s.capturing then ⟨.error .exposureInProgress, s, []⟩
          else
            match value.toBoolVal with
            | .error e => ⟨.error (.propertyError prop e), s, []⟩
            | .ok val =>
                match s.shutterOpen with
                | some _ => ⟨.ok (), { s with shutterOpen := some val }, []⟩
                | none => ⟨.error (.propertyError prop .notFound), s, []⟩
      | _ => ⟨.error (.propertyError prop .notFound), s, []⟩
    else
      match ctrl with
      | .gain | .gamma =>
          if s.capturing then ⟨.error .exposureInProgress, s, []⟩
          else
            match value.toInt64 with
            | .error e => ⟨.error (.propertyError prop e), s, []⟩
            | .ok val =>
                let (res, tr) := set_control_value env s.handle ctrl val autoI
                ⟨res, s, tr⟩
      | .flip =>
          match AsiHandle.get_flip s env with
          | (.error e, tr) => ⟨.error e, s, tr⟩
          | (.ok (flipx, flipy), tr) =>
              match value.toBoolVal with
              | .error e => ⟨.error (.propertyError prop e), s, tr⟩
              | .ok val =>
                  match
                    (match prop with
                     | .sensor .reverseX => Except.ok (val, flipy)
                     | .sensor .reverseY => Except.ok (flipx, val)
                     | _ => Except.error (GenCamError.propertyError prop .notFound))
                  with
                  | .error e => ⟨.error e, s, tr⟩
                  | .ok (fx, fy) =>
                      let (res, tr') := AsiHandle.set_flip s env fx fy
                      ⟨res, s, tr ++ tr'⟩
      | .temperature =>
          match value.toFloat64 with
          | .error e => ⟨.error (.propertyError prop e), s, []⟩
          | .ok val =>
              let v := f64toI64 (val * 10)
              let (res, tr) := set_control_value env s.handle ctrl v autoI
              ⟨res, s, tr⟩
      | .autoExpMax | .autoExpTarget | .autoExpMaxGain | .highSpeedMode
      | .coolerPowerPercent | .targetTemp =>
          match value.toInt64 with
          | .error e => ⟨.error (.propertyError prop e), s, []⟩
          | .ok val =>
              let (res, tr) := set_control_value env s.handle ctrl val autoI
              ⟨res, s, tr⟩
      | _ => ⟨.error (.propertyError prop .notFound), s, []⟩

/-- `AsiHandle::get_property` (asihandle.rs, lines 646-715). -/
def AsiHandle.get_property (s : AsiState) (env : NativeEnv) (prop : GenCamCtrl) :
    StepResult (PropertyValue × Bool) :=
  match s.caps prop with
  | none => ⟨.error (.propertyError prop .notFound), s, []⟩
  | some (ctrl, _) =>
    if ctrl = .invalid then
      match prop with
      | .sensor .pixelFormat =>
          match AsiHandle.get_roi s env with
          | ⟨.error e, s', tr⟩ => ⟨.error e, s', tr⟩
          | ⟨.ok roi, s', tr⟩ => ⟨.ok (.pixelFmt (pixBppOfImgType roi.fmt), false), s', tr⟩
      | .device (.custom name) =>
          if name = "UUID" then
            let (code, id) := env.getID
            if code ≠ ASI_ERROR_CODE_ASI_SUCCESS then
              ⟨.error (mapDefaultErr s.handle code), s, [.getID]⟩
            else ⟨.ok (.enumStr id, false), s, [.getID]⟩
          else ⟨.error (.propertyError prop .notFound), s, []⟩
      | .sensor .reverseX =>
          match AsiHandle.get_flip s env with
          | (.error e, tr) => ⟨.error e, s, tr⟩
          | (.ok (flipx, _), tr) => ⟨.ok (.bool flipx, false), s, tr⟩
      | .sensor .reverseY =>
          match AsiHandle.get_flip s env with
          | (.error e, tr) => ⟨.error e, s, tr⟩
          | (.ok (_, flipy), tr) => ⟨.ok (.bool flipy, false), s, tr⟩
      | .sensor .shutterMode =>
          match s.shutterOpen with
          | some op => ⟨.ok (.bool op, false), s, []⟩
          | none => ⟨.error (.propertyError prop .notFound), s, []⟩
      | _ => ⟨.error (.propertyError prop .notFound), s, []⟩
    else
      match get_control_value env s.handle ctrl with
      | (.error e, tr) => ⟨.error e, s, tr⟩
      | (.ok (val, auto), tr) =>
          if ctrl = .temperature then
            ⟨.ok (.float ((val : Rat) * (1 / 10)), auto = ASI_BOOL_ASI_TRUE), s, tr⟩
          else
            ⟨.ok (.int val, auto = ASI_BOOL_ASI_TRUE), s, tr⟩

/-- `impl Drop for AsiHandle` (asihandle.rs, lines 112-132): the native
calls issued on teardown.  Each call's failure is only logged (`warn!`),
so the sequence of calls does not depend on the outcomes in `env`; the
cooler-off write happens only for handles with a cooler. -/
def AsiHandle.dropTrace (hasCooler : Bool) (_env : NativeEnv) : List NativeCall :=
  [.stopExposure]
    ++ (if hasCooler then
          [.setControlValue .coolerOn ASI_BOOL_ASI_FALSE ASI_BOOL_ASI_FALSE]
        else [])
    ++ [.closeCamera]

/-! ## `zwo_ffi_wrapper.rs`: the newtype handle and the device-control facet -/

/-- `impl Drop for AsiHandle` (zwo_ffi_wrapper.rs, lines 897-917): stop
exposure, disable cooler, close camera — unconditionally, each failure
only logged. -/
def AsiHandleW.dropTrace (_env : NativeEnv) : List NativeCall :=
  [.stopExposure,
   .setControlValue .coolerOn ASI_BOOL_ASI_FALSE ASI_BOOL_ASI_FALSE,
   .closeCamera]

/-- `zwo_ffi_wrapper::AsiDeviceCtrl`: the device-level half of the split
control catalog (two keyed maps, modelled as lookup functions). -/
structure AsiDeviceCtrl where
  mcaps : GenCamCtrl → Option AsiControlType
  dcaps : GenCamCtrl → Option Property

/-- `AsiDeviceCtrl::get_controller`. -/
def AsiDeviceCtrl.get_controller (c : AsiDeviceCtrl) (name : GenCamCtrl) :
    Option (AsiControlType × Property) :=
  match c.mcaps name, c.dcaps name with
  | some ctrl, some prop => some (ctrl, prop)
  | _, _ => none

/-- `AsiDeviceCtrl::get_value` (zwo_ffi_wrapper.rs, lines 523-540). -/
def AsiDeviceCtrl.get_value (c : AsiDeviceCtrl) (env : NativeEnv) (handle : Int)
    (name : GenCamCtrl) : Except GenCamError (PropertyValue × Bool) × List NativeCall :=
  match c.get_controller name with
  | none => (.error (.propertyError name .notFound), [])
  | some (ctrl, _) =>
      match get_control_value env handle ctrl with
      | (.error e, tr) => (.error e, tr)
      | (.ok (value, auto), tr) =>
          if name = .device .temperature then
            (.ok (.float ((value : Rat) / 10), auto ≠ 0), tr)
          else
            (.ok (.int value, auto ≠ 0), tr)

/-- `AsiDeviceCtrl::set_value` (zwo_ffi_wrapper.rs, lines 542-574):
validate the value against the declared limits, then convert (floats are
scaled by 10 and truncated) and issue the native write. -/
def AsiDeviceCtrl.set_value (c : AsiDeviceCtrl) (env : NativeEnv) (handle : Int)
    (name : GenCamCtrl) (value : PropertyValue) (auto : Bool) :
    Except GenCamError Unit × List NativeCall :=
  match c.get_controller name with
  | none => (.error (.propertyError name .notFound), [])
  | some (ctrl, prop) =>
      match prop.validate value with
      | .error e => (.error (.propertyError name e), [])
      | .ok _ =>
          match
            (match value with
             | .int v => Except.ok v
             | .float v => Except.ok (f64toI64 (v * 10))
             | _ =>
                 Except.error
                   (GenCamError.propertyError name (.invalidControlType .int value.ptype)))
          with
          | .error e => (.error e, [])
          | .ok v => set_control_value env handle ctrl v (to_asibool auto)

/-! ## `asicamera_2.rs`: the `CameraUnitASI` imager

The older imager uses the `cameraunit` crate's error taxonomy and `ROI`
type (fields as used by this repository: offsets, size and binning as
unsigned 32-bit values, modelled as `Nat`). -/

/-- Modelled from the spec: the `cameraunit::Error` variants used by this
repository. -/
inductive CUError where
  | invalidId (id : Int)
  | cameraClosed
  | timedOut
  | invalidValue (msg : String)
  | exposureInProgress
  | exposureFailed (msg : String)
  | generalError (msg : String)
  | outOfBounds (msg : String)
  | invalidMode (msg : String)
  | invalidControlType (msg : String)
  deriving DecidableEq, Repr

/-- `asicamera_2::ASIImageFormat`. -/
inductive ASIImageFormat where
  | imageRAW8
  | imageRGB24
  | imageRAW16
  deriving DecidableEq, Repr

/-- `ASIImageFormat::from_u32`. -/
def ASIImageFormat.from_u32 (v : Int) : Option ASIImageFormat :=
  if v = ASI_IMG_TYPE_ASI_IMG_RAW8 then some .imageRAW8
  else if v = ASI_IMG_TYPE_ASI_IMG_RGB24 then some .imageRGB24
  else if v = ASI_IMG_TYPE_ASI_IMG_RAW16 then some .imageRAW16
  else none

def ASIImageFormat.code : ASIImageFormat → Int
  | .imageRAW8 => ASI_IMG_TYPE_ASI_IMG_RAW8
  | .imageRGB24 => ASI_IMG_TYPE_ASI_IMG_RGB24
  | .imageRAW16 => ASI_IMG_TYPE_ASI_IMG_RAW16

/-- `asicamera_2::ASIRoiMode`. -/
structure ASIRoiMode where
  width : Int
  height : Int
  bin : Int
  fmt : ASIImageFormat
  deriving DecidableEq, Repr

/-- Modelled from the spec: `cameraunit::ROI` with the fields this
repository uses (`u32` offsets, size and binning, modelled as `Nat`;
`u32` subtraction is modelled as truncated `Nat` subtraction). -/
structure CURoi where
  x_min : Nat
  y_min : Nat
  width : Nat
  height : Nat
  bin_x : Nat
  bin_y : Nat
  deriving DecidableEq, Repr

/-- The `CameraUnitASI` fields reached by the embedded operations.
`nameContainsASI120` models `self.camera_name().contains("ASI120")`. -/
structure CUState where
  id : Int
  capturing : Bool
  isDarkFrame : Bool
  roi : CURoi
  maxWidth : Nat
  maxHeight : Nat
  supportedBins : List Nat
  isUsb3Camera : Bool
  nameContainsASI120 : Bool
  deriving DecidableEq, Repr

structure CUStepResult (α : Type) where
  result : Except CUError α
  state : CUState
  trace : List NativeCall

/-- `ASIExposureStatus::from_u32` (asicamera_2.rs): unlike the wrapper
module's conversion, unknown status values are an `InvalidMode` error. -/
def ASIExposureStatus.from_u32 (v : Nat) : Except CUError AsiExposureStatus :=
  if v = ASI_EXPOSURE_STATUS_ASI_EXP_IDLE then .ok .idle
  else if v = ASI_EXPOSURE_STATUS_ASI_EXP_WORKING then .ok .working
  else if v = ASI_EXPOSURE_STATUS_ASI_EXP_SUCCESS then .ok .success
  else if v = ASI_EXPOSURE_STATUS_ASI_EXP_FAILED then .ok .failed
  else .error (.invalidMode "")

/-- `CameraUnitASI::get_exposure_status`: one `ASIGetExpStatus` call; only
the invalid-id and camera-closed codes are checked, any other return code
falls through to parsing the status out-parameter. -/
def CameraUnitASI.get_exposure_status (s : CUState) (env : NativeEnv) :
    Except CUError AsiExposureStatus × List NativeCall :=
  let (code, stat) := env.getExpStatus
  if code = ASI_ERROR_CODE_ASI_ERROR_INVALID_ID then
    (.error (.invalidId s.id), [.getExpStatus])
  else if code = ASI_ERROR_CODE_ASI_ERROR_CAMERA_CLOSED then
    (.error .cameraClosed, [.getExpStatus])
  else
    (ASIExposureStatus.from_u32 stat, [.getExpStatus])

/-- `CameraUnitASI::get_roi_format`. -/
def CameraUnitASI.get_roi_format (s : CUState) (env : NativeEnv) :
    Except CUError ASIRoiMode × List NativeCall :=
  let (code, w, h, b, f) := env.getROIFormat
  if code = ASI_ERROR_CODE_ASI_ERROR_INVALID_ID then
    (.error (.invalidId s.id), [.getROIFormat])
  else if code = ASI_ERROR_CODE_ASI_ERROR_CAMERA_CLOSED then
    (.error .cameraClosed, [.getROIFormat])
  else
    match ASIImageFormat.from_u32 f with
    | some fmt => (.ok ⟨w, h, b, fmt⟩, [.getROIFormat])
    | none => (.error (.invalidMode ""), [.getROIFormat])

/-- `CameraUnitASI::set_roi_format`: only the invalid-id and camera-closed
codes are treated as failures. -/
def CameraUnitASI.set_roi_format (s : CUState) (env : NativeEnv) (roi : ASIRoiMode) :
    Except CUError Unit × List NativeCall :=
  let code := env.setROIFormat roi.width roi.height roi.bin roi.fmt.code
  let call := NativeCall.setROIFormat roi.width roi.height roi.bin roi.fmt.code
  if code = ASI_ERROR_CODE_ASI_ERROR_INVALID_ID then (.error (.invalidId s.id), [call])
  else if code = ASI_ERROR_CODE_ASI_ERROR_CAMERA_CLOSED then (.error .cameraClosed, [call])
  else (.ok (), [call])

/-- `CameraUnitASI::set_start_pos`: negative coordinates are rejected
before any native call; of the native codes, invalid-id, camera-closed and
out-of-boundary are treated as failures. -/
def CameraUnitASI.set_start_pos (s : CUState) (env : NativeEnv) (x y : Int) :
    Except CUError Unit × List NativeCall :=
  if x < 0 ∨ y < 0 then (.error (.invalidValue ""), [])
  else
    let code := env.setStartPos x y
    if code = ASI_ERROR_CODE_ASI_ERROR_INVALID_ID then
      (.error (.invalidId s.id), [.setStartPos x y])
    else if code = ASI_ERROR_CODE_ASI_ERROR_CAMERA_CLOSED then
      (.error .cameraClosed, [.setStartPos x y])
    else if code = ASI_ERROR_CODE_ASI_ERROR_OUTOF_BOUNDARY then
      (.error (.outOfBounds ""), [.setStartPos x y])
    else (.ok (), [.setStartPos x y])

/-- `CameraUnitASI::get_start_pos`. -/
def CameraUnitASI.get_start_pos (s : CUState) (env : NativeEnv) :
    Except CUError (Int × Int) × List NativeCall :=
  let (code, x, y) := env.getStartPos
  if code = ASI_ERROR_CODE_ASI_ERROR_INVALID_ID then
    (.error (.invalidId s.id), [.getStartPos])
  else if code = ASI_ERROR_CODE_ASI_ERROR_CAMERA_CLOSED then
    (.error .cameraClosed, [.getStartPos])
  else
    (.ok (x, y), [.getStartPos])

/-- `CameraUnitASI::start_exposure` (asicamera_2.rs, lines 977-1014):
consult the native exposure status first; a `Working` device means an
exposure is already in progress; then set the capturing flag, issue the
native start call (dark frame flag from `is_dark_frame`), and roll the
flag back on the three recognized failure codes (any other nonzero code
falls through to success). -/
def CameraUnitASI.start_exposure (s : CUState) (env : NativeEnv) : CUStepResult Unit :=
  match CameraUnitASI.get_exposure_status s env with
  | (.error e, tr) => ⟨.error e, s, tr⟩
  | (.ok stat, tr) =>
      if stat = .working then
        ⟨.error .exposureInProgress, { s with capturing := true }, tr⟩
      else
        -- a Failed status logs a warning and clears the flag, which is
        -- immediately set again below
        let s := { s with capturing := true }
        let code := env.startExposure s.isDarkFrame
        let tr := tr ++ [.startExposure s.isDarkFrame]
        if code = ASI_ERROR_CODE_ASI_ERROR_INVALID_ID then
          ⟨.error (.invalidId s.id), { s with capturing := false }, tr⟩
        else if code = ASI_ERROR_CODE_ASI_ERROR_CAMERA_CLOSED then
          ⟨.error .cameraClosed, { s with capturing := false }, tr⟩
        else if code = ASI_ERROR_CODE_ASI_ERROR_VIDEO_MODE_ACTIVE then
          ⟨.error (.generalError "Video mode active"), { s with capturing := false }, tr⟩
        else
          ⟨.ok (), s, tr⟩

/-- The in-place ROI adjustment of `CameraUnitASI::set_roi` (asicamera_2.rs,
lines 1369-1380): force square binning, clamp width/height to the sensor,
and round width down to a multiple of 8 and height to a multiple of 2. -/
def CameraUnitASI.adjustRoi (maxWidth maxHeight : Nat) (roi : CURoi) : CURoi :=
  let roi := { roi with bin_y := roi.bin_x }
  let roi :=
    if roi.width + roi.x_min > maxWidth / roi.bin_x then
      { roi with width := (maxWidth - roi.x_min) / roi.bin_x }
    else roi
  let roi :=
    if roi.height + roi.y_min > maxHeight / roi.bin_y then
      { roi with height := (maxHeight - roi.y_min) / roi.bin_y }
    else roi
  { roi with width := roi.width - roi.width % 8, height := roi.height - roi.height % 2 }

/-- `CameraUnitASI::set_roi` (asicamera_2.rs, lines 1348-1422): validate
binning and geometry, reject while capturing, then read the current ROI
format and start position, write the new format, write the new start
position — restoring the previous format if the position write failed —
and finally cache the requested (adjusted) ROI and return it. -/
def CameraUnitASI.set_roi (s : CUState) (env : NativeEnv) (roi : CURoi) :
    CUStepResult CURoi :=
  if roi.bin_x ≠ roi.bin_y then ⟨.error (.invalidValue ""), s, []⟩
  else if roi.bin_x < 1 then ⟨.error (.invalidValue ""), s, []⟩
  else if roi.bin_x ∉ s.supportedBins then ⟨.error (.invalidValue ""), s, []⟩
  else
    let roi := CameraUnitASI.adjustRoi s.maxWidth s.maxHeight roi
    if roi.width > s.maxWidth / s.roi.bin_x ∨ roi.height > s.maxHeight / s.roi.bin_y then
      ⟨.error (.invalidValue ""), s, []⟩
    else if ¬s.isUsb3Camera ∧ s.nameContainsASI120 ∧ roi.width * roi.height % 1024 ≠ 0 then
      ⟨.error (.invalidValue ""), s, []⟩
    else if s.capturing then ⟨.error .exposureInProgress, s, []⟩
    else
      match CameraUnitASI.get_roi_format s env with
      | (.error e, tr) => ⟨.error e, s, tr⟩
      | (.ok roiMd, tr) =>
          match CameraUnitASI.get_start_pos s env with
          | (.error e, tr') => ⟨.error e, s, tr ++ tr'⟩
          | (.ok _, tr') =>
              let roiMdOld := roiMd
              let roiMd :=
                { roiMd with
                    width := (roi.width : Int), height := (roi.height : Int),
                    bin := (roi.bin_x : Int) }
              match CameraUnitASI.set_roi_format s env roiMd with
              | (.error e, tr'') => ⟨.error e, s, tr ++ tr' ++ tr''⟩
              | (.ok _, tr'') =>
                  let (posRes, trPos) :=
                    CameraUnitASI.set_start_pos s env (roi.x_min : Int) (roi.y_min : Int)
                  match posRes with
                  | .error _ =>
                      match CameraUnitASI.set_roi_format s env roiMdOld with
                      | (.error e, trRb) =>
                          ⟨.error e, s, tr ++ tr' ++ tr'' ++ trPos ++ trRb⟩
                      | (.ok _, trRb) =>
                          ⟨.ok roi, { s with roi := roi },
                           tr ++ tr' ++ tr'' ++ trPos ++ trRb⟩
                  | .ok _ =>
                      ⟨.ok roi, { s with roi := roi }, tr ++ tr' ++ tr'' ++ trPos⟩

/-! ## Concrete fixtures used by witnesses and counterexamples -/

/-- A small concrete control catalog: a gain control with range 0..600, a
temperature control, and the synthetic pixel-format control. -/
def baseCaps : GenCamCtrl → Option (AsiControlType × Property) := fun c =>
  if c = .analog .gain then
    some (.gain, Property.new (.int 0 600 1 300) true false)
  else if c = .device .temperature then
    some (.temperature, Property.new (.float (-30) 30 (1 / 10) 0) true false)
  else if c = .sensor .pixelFormat then
    some (.invalid, Property.new (.pixelFmt [.bpp8, .bpp16] .bpp8) false false)
  else none

/-- A native environment in which every call succeeds. -/
def envOk : NativeEnv :=
  { now := 100
    startExposure := fun _ => ASI_ERROR_CODE_ASI_SUCCESS
    stopExposure := ASI_ERROR_CODE_ASI_SUCCESS
    getControlValue := fun _ => (ASI_ERROR_CODE_ASI_SUCCESS, 42, 0)
    setControlValue := fun _ _ _ => ASI_ERROR_CODE_ASI_SUCCESS
    getExpStatus := (ASI_ERROR_CODE_ASI_SUCCESS, ASI_EXPOSURE_STATUS_ASI_EXP_SUCCESS)
    getStartPos := (ASI_ERROR_CODE_ASI_SUCCESS, 0, 0)
    getROIFormat := (ASI_ERROR_CODE_ASI_SUCCESS, 128, 64, 1, ASI_IMG_TYPE_ASI_IMG_RAW16)
    setStartPos := fun _ _ => ASI_ERROR_CODE_ASI_SUCCESS
    setROIFormat := fun _ _ _ _ => ASI_ERROR_CODE_ASI_SUCCESS
    setID := ASI_ERROR_CODE_ASI_SUCCESS
    getID := (ASI_ERROR_CODE_ASI_SUCCESS, "CAM0")
    closeCamera := ASI_ERROR_CODE_ASI_SUCCESS }

/-- A native environment in which `ASIStartExposure` fails with
`CAMERA_CLOSED` and `ASIGetControlValue` reads 150 (native tenths). -/
def envFail : NativeEnv :=
  { envOk with
      startExposure := fun _ => ASI_ERROR_CODE_ASI_ERROR_CAMERA_CLOSED
      getControlValue := fun _ => (ASI_ERROR_CODE_ASI_SUCCESS, 150, 0) }

/-- An idle handle state over `baseCaps`. -/
def baseState : AsiState :=
  { handle := 7
    capturing := false
    shutterOpen := none
    exposure := 1000
    gain := some 42
    gainBorrowed := false
    roi := ⟨0, 0, 128, 64, 1, ASI_IMG_TYPE_ASI_IMG_RAW16⟩
    roiBorrowed := false
    lastExposure := none
    lastExpBorrowed := false
    startInstant := none
    startLockWriteFails := false
    startLockReadFails := false
    hasCooler := true
    caps := baseCaps }

/-- A concrete `CameraUnitASI` state: 1024x768 sensor currently binned
2x2, bins 1 and 2 supported, USB3, idle. -/
def cuState : CUState :=
  { id := 3
    capturing := false
    isDarkFrame := false
    roi := ⟨0, 0, 128, 64, 2, 2⟩
    maxWidth := 1024
    maxHeight := 768
    supportedBins := [1, 2]
    isUsb3Camera := true
    nameContainsASI120 := false }

/-- An environment for the ROI-rollback scenario: the device reports ROI
format 128x64 bin 2 RAW16 at position (0,0); every format write succeeds;
the start-position write fails with `OUTOF_BOUNDARY`. -/
def envRoiFail : NativeEnv :=
  { envOk with
      getROIFormat := (ASI_ERROR_CODE_ASI_SUCCESS, 128, 64, 2, ASI_IMG_TYPE_ASI_IMG_RAW16)
      setStartPos := fun _ _ => ASI_ERROR_CODE_ASI_ERROR_OUTOF_BOUNDARY }

/-- A concrete device-control facet: one cooler-target-temperature
control with range -20..20. -/
def devCtrlFix : AsiDeviceCtrl :=
  { mcaps := fun c => if c = .device .coolerTemp then some .targetTemp else none
    dcaps := fun c =>
      if c = .device .coolerTemp then some (Property.new (.int (-20) 20 1 0) false false)
      else none }

/-! ## Helper lemmas -/

/-- `get_gain` changes at most the cached gain field: the fields read by
the rest of `start_exposure` are untouched. -/
theorem AsiHandle.get_gain_preserves (s : AsiState) (env : NativeEnv) :
    (AsiHandle.get_gain s env).state.handle = s.handle ∧
    (AsiHandle.get_gain s env).state.capturing = s.capturing ∧
    (AsiHandle.get_gain s env).state.startLockWriteFails = s.startLockWriteFails ∧
    (AsiHandle.get_gain s env).state.lastExpBorrowed = s.lastExpBorrowed ∧
    (AsiHandle.get_gain s env).state.shutterOpen = s.shutterOpen := by
  unfold AsiHandle.get_gain
  split
  · exact ⟨rfl, rfl, rfl, rfl, rfl⟩
  · cases hg : s.gain with
    | some g => simp [hg]
    | none =>
        cases hc : get_control_value env s.handle .gain with
        | mk res tr =>
            cases res with
            | ok v => simp [hg, hc]
            | error e => simp [hg, hc]

/-- The default asihandle error mapping produces only the three surfaced
variants. -/
theorem mapDefaultErr_cases (h : Int) (code : Nat) :
    mapDefaultErr h code = .cameraClosed ∨ mapDefaultErr h code = .invalidId h ∨
      mapDefaultErr h code = .generalError "" := by
  unfold mapDefaultErr
  rcases AsiError.fromCode code none none <;> simp

/-! ## Claim theorems -/

/-- **C1**: a `start_exposure` call while the capturing flag is already
set fails with `ExposureInProgress`, issues no native call (in particular
no native start), and leaves the state — hence the capturing flag —
unchanged. -/
theorem start_exposure_rejects_when_capturing (s : AsiState) (env : NativeEnv)
    (h : s.capturing = true) :
    (AsiHandle.start_exposure s env).result = .error .exposureInProgress ∧
    (AsiHandle.start_exposure s env).state = s ∧
    (AsiHandle.start_exposure s env).trace = [] := by
  simp [AsiHandle.start_exposure, h]

/-- Witness for C1: a concrete capturing handle. -/
theorem start_exposure_rejects_when_capturing_witness :
    ({ baseState with capturing := true } : AsiState).capturing = true ∧
    (AsiHandle.start_exposure { baseState with capturing := true } envOk).result
      = .error .exposureInProgress ∧
    (AsiHandle.start_exposure { baseState with capturing := true } envOk).trace = [] := by
  refine ⟨rfl, ?_, ?_⟩
  · exact (start_exposure_rejects_when_capturing _ envOk rfl).1
  · exact (start_exposure_rejects_when_capturing _ envOk rfl).2.2

/-- **C6 (counterexample)**: with the capturing flag clear, `image_ready`
does not return `Ok(false)` — it fails with `ExposureNotStarted`. -/
theorem image_ready_errors_when_idle :
    (AsiHandle.image_ready baseState envOk).result = .error .exposureNotStarted ∧
    (AsiHandle.image_ready baseState envOk).result ≠ .ok false := by
  constructor <;> decide

/-- **C6 (amended)**: with the capturing flag clear, `camera_state`
returns `Idle` and `image_ready` fails with `ExposureNotStarted`, both
immediately and without issuing any native call. -/
theorem idle_state_no_native_call (s : AsiState) (env : NativeEnv)
    (h : s.capturing = false) :
    (AsiHandle.get_state s env).result = .ok .idle ∧
    (AsiHandle.get_state s env).trace = [] ∧
    (AsiHandle.image_ready s env).result = .error .exposureNotStarted ∧
    (AsiHandle.image_ready s env).trace = [] := by
  simp [AsiHandle.get_state, AsiHandle.image_ready, h]

/-- Witness for C6 (amended): the concrete idle handle. -/
theorem idle_state_no_native_call_witness :
    baseState.capturing = false ∧
    (AsiHandle.get_state baseState envOk).result = .ok .idle ∧
    (AsiHandle.get_state baseState envOk).trace = [] := by
  refine ⟨rfl, ?_, ?_⟩
  · exact (idle_state_no_native_call baseState envOk rfl).1
  · exact (idle_state_no_native_call baseState envOk rfl).2.1

/-- **C7 (counterexample)**: tearing down an imager handle whose device
has no cooler never attempts the cooler-disable write, contradicting
"always attempts stop-exposure, then cooler-disable, then close". -/
theorem drop_skips_cooler_without_cooler :
    AsiHandle.dropTrace false envOk = [.stopExposure, .closeCamera] ∧
    NativeCall.setControlValue .coolerOn ASI_BOOL_ASI_FALSE ASI_BOOL_ASI_FALSE
      ∉ AsiHandle.dropTrace false envOk := by
  constructor <;> decide

/-- **C7 (amended)**: teardown issues stop-exposure, cooler-disable (for
the imager handle only when the device has a cooler; unconditionally for
the wrapper-module handle) and close-camera, in that order, and the call
sequence does not depend on the outcome of any native call — an earlier
failure never prevents the later steps. -/
theorem drop_teardown_order (hasCooler : Bool) (env env' : NativeEnv) :
    AsiHandleW.dropTrace env
      = [.stopExposure,
         .setControlValue .coolerOn ASI_BOOL_ASI_FALSE ASI_BOOL_ASI_FALSE,
         .closeCamera] ∧
    AsiHandle.dropTrace true env
      = [.stopExposure,
         .setControlValue .coolerOn ASI_BOOL_ASI_FALSE ASI_BOOL_ASI_FALSE,
         .closeCamera] ∧
    AsiHandle.dropTrace false env = [.stopExposure, .closeCamera] ∧
    AsiHandle.dropTrace hasCooler env = AsiHandle.dropTrace hasCooler env' ∧
    AsiHandleW.dropTrace env = AsiHandleW.dropTrace env' :=
  ⟨rfl, rfl, rfl, rfl, rfl⟩

/-- **C8**: the native-error mapper is total (it is a function defined for
every integer code): each known non-success constant maps to its dedicated
variant, and every code outside the known set maps to `GeneralError`. -/
theorem asi_error_mapper_total :
    (∀ src args,
      AsiError.fromCode ASI_ERROR_CODE_ASI_ERROR_INVALID_INDEX src args
          = .invalidIndex src args ∧
      AsiError.fromCode ASI_ERROR_CODE_ASI_ERROR_INVALID_ID src args = .invalidId src args ∧
      AsiError.fromCode ASI_ERROR_CODE_ASI_ERROR_INVALID_CONTROL_TYPE src args
          = .invalidControlType src args ∧
      AsiError.fromCode ASI_ERROR_CODE_ASI_ERROR_CAMERA_CLOSED src args
          = .cameraClosed src args ∧
      AsiError.fromCode ASI_ERROR_CODE_ASI_ERROR_CAMERA_REMOVED src args
          = .cameraRemoved src args ∧
      AsiError.fromCode ASI_ERROR_CODE_ASI_ERROR_INVALID_PATH src args
          = .invalidPath src args ∧
      AsiError.fromCode ASI_ERROR_CODE_ASI_ERROR_INVALID_FILEFORMAT src args
          = .invalidFileFormat src args ∧
      AsiError.fromCode ASI_ERROR_CODE_ASI_ERROR_INVALID_SIZE src args
          = .invalidSize src args ∧
      AsiError.fromCode ASI_ERROR_CODE_ASI_ERROR_INVALID_IMGTYPE src args
          = .invalidImage src args ∧
      AsiError.fromCode ASI_ERROR_CODE_ASI_ERROR_OUTOF_BOUNDARY src args
          = .outOfBounds src args ∧
      AsiError.fromCode ASI_ERROR_CODE_ASI_ERROR_TIMEOUT src args = .timeout src args ∧
      AsiError.fromCode ASI_ERROR_CODE_ASI_ERROR_INVALID_SEQUENCE src args
          = .invalidSequence src args ∧
      AsiError.fromCode ASI_ERROR_CODE_ASI_ERROR_BUFFER_TOO_SMALL src args
          = .bufferTooSmall src args ∧
      AsiError.fromCode ASI_ERROR_CODE_ASI_ERROR_VIDEO_MODE_ACTIVE src args
          = .videoModeActive src args ∧
      AsiError.fromCode ASI_ERROR_CODE_ASI_ERROR_EXPOSURE_IN_PROGRESS src args
          = .exposureInProgress src args ∧
      AsiError.fromCode ASI_ERROR_CODE_ASI_ERROR_GENERAL_ERROR src args
          = .generalError src args ∧
      AsiError.fromCode ASI_ERROR_CODE_ASI_ERROR_INVALID_MODE src args
          = .invalidMode src args) ∧
    (∀ code src args, code ∉ asiKnownErrorCodes →
      AsiError.fromCode code src args = .generalError src args) := by
  constructor
  · intro src args
    refine ⟨rfl, rfl, rfl, rfl, rfl, rfl, rfl, rfl, rfl, rfl, rfl, rfl, rfl, rfl, rfl, rfl, rfl⟩
  · intro code src args h
    simp only [asiKnownErrorCodes, List.mem_cons, List.not_mem_nil, or_false, not_or] at h
    obtain ⟨h1, h2, h3, h4, h5, h6, h7, h8, h9, h10, h11, h12, h13, h14, h15, h16, h17⟩ := h
    simp [AsiError.fromCode, h1, h2, h3, h4, h5, h6, h7, h8, h9, h10, h11, h12, h13, h14,
      h15, h16, h17]

/-- Witness for C8: the unrecognized code 255 maps to `GeneralError`. -/
theorem asi_error_mapper_total_witness :
    (255 : Nat) ∉ asiKnownErrorCodes ∧
    AsiError.fromCode 255 none none = .generalError none none :=
  ⟨by decide, asi_error_mapper_total.2 255 none none (by decide)⟩

/-- **C10**: the pixel-format variant list built from the device's
supported-video-format list contains only the 8-bit and 16-bit raw
formats, and the catalog's default — the first element, whose Rust
indexing panics when the list is empty (`none` here) — is missing exactly
when neither RAW8 nor RAW16 occurs before the end marker. -/
theorem get_pixfmt_only_raw_and_default_panics :
    (∀ (l : List Int) (e : Int) (x : GenCamPixelBpp),
      x ∈ get_pixfmt l e → x = .bpp8 ∨ x = .bpp16) ∧
    (∀ (l : List Int) (e : Int),
      pixfmtDefault l e = none ↔
        ASI_IMG_TYPE_ASI_IMG_RAW8 ∉ l.takeWhile (fun v => v ≠ e) ∧
        ASI_IMG_TYPE_ASI_IMG_RAW16 ∉ l.takeWhile (fun v => v ≠ e)) := by
  constructor
  · intro l e x hx
    simp only [get_pixfmt, List.mem_filterMap] at hx
    obtain ⟨a, -, hfa⟩ := hx
    split_ifs at hfa
    · exact Or.inl (Option.some.inj hfa).symm
    · exact Or.inr (Option.some.inj hfa).symm
  · intro l e
    rw [pixfmtDefault, List.head?_eq_none_iff, get_pixfmt, List.filterMap_eq_nil_iff]
    constructor
    · intro h
      constructor
      · intro hmem
        have := h _ hmem
        simp at this
      · intro hmem
        have := h _ hmem
        rw [if_neg (by decide), if_pos rfl] at this
        exact Option.noConfusion this
    · rintro ⟨h8, h16⟩ a ha
      split_ifs with e8 e16
      · exact absurd (e8 ▸ ha) h8
      · exact absurd (e16 ▸ ha) h16
      · rfl

/-- Witness for C10: a format list with RAW16 and an unknown format before
the end marker. -/
theorem get_pixfmt_only_raw_and_default_panics_witness :
    GenCamPixelBpp.bpp16 ∈ get_pixfmt [2, 3, -1, 0] (-1) ∧
    (GenCamPixelBpp.bpp16 = .bpp8 ∨ GenCamPixelBpp.bpp16 = .bpp16) :=
  ⟨by decide, get_pixfmt_only_raw_and_default_panics.1 [2, 3, -1, 0] (-1) _ (by decide)⟩

/-- **C2 (counterexample)**: `start_exposure` can return an error while
leaving the capturing flag set: with the ROI cell borrowed (a reentrant
access), the call sets `capturing`, then fails with `AccessViolation`
without rolling the flag back (and without any native call). -/
theorem start_exposure_error_can_leave_capturing :
    (AsiHandle.start_exposure { baseState with roiBorrowed := true } envOk).result
        = .error .accessViolation ∧
    (AsiHandle.start_exposure { baseState with roiBorrowed := true } envOk).state.capturing
        = true ∧
    (AsiHandle.start_exposure { baseState with roiBorrowed := true } envOk).trace = [] := by
  refine ⟨?_, ?_, ?_⟩ <;> decide

/-- **C2 (amended)**: when the native start call is actually reached and
fails, both imagers roll the capturing flag back to `false` before
surfacing the error; for `AsiHandle::start_exposure` the surfaced error is
one of `CameraClosed`, `InvalidId`, `GeneralError`.  (The unamended
universal claim fails on the `AccessViolation` paths, see the
counterexample.) -/
theorem start_exposure_native_failure_rolls_back :
    (∀ (s : AsiState) (env : NativeEnv),
      s.capturing = false → s.roiBorrowed = false → s.startLockWriteFails = false →
      env.startExposure (AsiHandle.darkframeOf s) ≠ ASI_ERROR_CODE_ASI_SUCCESS →
      ∃ e, (AsiHandle.start_exposure s env).result = .error e ∧
        (e = .cameraClosed ∨ e = .invalidId s.handle ∨ e = .generalError "") ∧
        (AsiHandle.start_exposure s env).state.capturing = false) ∧
    (∀ (s : CUState) (env : NativeEnv) (stat : AsiExposureStatus),
      (CameraUnitASI.get_exposure_status s env).1 = .ok stat → stat ≠ .working →
      (env.startExposure s.isDarkFrame = ASI_ERROR_CODE_ASI_ERROR_INVALID_ID ∨
       env.startExposure s.isDarkFrame = ASI_ERROR_CODE_ASI_ERROR_CAMERA_CLOSED ∨
       env.startExposure s.isDarkFrame = ASI_ERROR_CODE_ASI_ERROR_VIDEO_MODE_ACTIVE) →
      ∃ e, (CameraUnitASI.start_exposure s env).result = .error e ∧
        (CameraUnitASI.start_exposure s env).state.capturing = false) := by
  constructor
  · intro s env hcap hroi hlock hfail
    have hpre := AsiHandle.get_gain_preserves { s with capturing := true } env
    unfold AsiHandle.start_exposure
    simp only [hcap, if_false, Bool.false_eq_true]
    have hdark : AsiHandle.darkframeOf { s with capturing := true } = AsiHandle.darkframeOf s := by
      simp [AsiHandle.darkframeOf]
    rw [if_neg (by simp [hroi])]
    rw [if_neg (by rw [hpre.2.2.1]; simp [hlock])]
    rw [hdark]
    rw [if_pos hfail]
    refine ⟨mapDefaultErr _ (env.startExposure (AsiHandle.darkframeOf s)), rfl, ?_, rfl⟩
    rw [hpre.1]
    exact mapDefaultErr_cases s.handle _
  · intro s env stat hstat hnw hfail
    unfold CameraUnitASI.start_exposure
    cases hget : CameraUnitASI.get_exposure_status s env with
    | mk res tr =>
        rw [hget] at hstat
        simp only at hstat
        subst hstat
        simp only
        rw [if_neg (by simpa using hnw)]
        rcases hfail with h | h | h
        · rw [h]
          exact ⟨.invalidId s.id, by simp, rfl⟩
        · rw [h]
          refine ⟨.cameraClosed, ?_, ?_⟩ <;> simp [ASI_ERROR_CODE_ASI_ERROR_CAMERA_CLOSED,
            ASI_ERROR_CODE_ASI_ERROR_INVALID_ID]
        · rw [h]
          refine ⟨.generalError "Video mode active", ?_, ?_⟩ <;>
            simp [ASI_ERROR_CODE_ASI_ERROR_CAMERA_CLOSED,
              ASI_ERROR_CODE_ASI_ERROR_INVALID_ID, ASI_ERROR_CODE_ASI_ERROR_VIDEO_MODE_ACTIVE]

/-- Witness for C2 (amended): the native start fails with `CAMERA_CLOSED`
on the concrete idle handle; the surfaced error leaves `capturing=false`. -/
theorem start_exposure_native_failure_rolls_back_witness :
    envFail.startExposure (AsiHandle.darkframeOf baseState) ≠ ASI_ERROR_CODE_ASI_SUCCESS ∧
    (∃ e, (AsiHandle.start_exposure baseState envFail).result = .error e ∧
      (e = .cameraClosed ∨ e = .invalidId baseState.handle ∨ e = .generalError "") ∧
      (AsiHandle.start_exposure baseState envFail).state.capturing = false) :=
  ⟨by decide,
   start_exposure_native_failure_rolls_back.1 baseState envFail rfl rfl rfl (by decide)⟩

/-- **C3 (counterexample)**: `AsiHandle::set_property` issues the native
gain write for a value the control's declared limits reject: with declared
range 0..600, setting gain to 1000 succeeds and reaches the native layer
(one `ASISetControlValue` call with value 1000), even though `validate`
rejects that value — so set_property does not validate every control's
value before the native call. -/
theorem set_property_gain_skips_range_validation :
    (AsiHandle.set_property baseState envOk (.analog .gain) (.int 1000) false).result
        = .ok () ∧
    (AsiHandle.set_property baseState envOk (.analog .gain) (.int 1000) false).trace
        = [.setControlValue .gain 1000 ASI_BOOL_ASI_FALSE] ∧
    (Property.new (.int 0 600 1 300) true false).validate (.int 1000)
        = .error .outOfBounds := by
  refine ⟨?_, ?_, ?_⟩ <;> decide

/-- **C3 (amended)**: the declared-limits validation happens before any
native call on the device-control path (`AsiDeviceCtrl::set_value`) and on
`set_property`'s pixel-format path: a value the limits reject yields a
typed `PropertyError` with an empty native trace.  (The other
`set_property` arms reject wrong-variant values without a native call but
pass range-unchecked numeric values through, see the counterexample.) -/
theorem set_value_validates_before_native :
    (∀ (c : AsiDeviceCtrl) (env : NativeEnv) (handle : Int) (name : GenCamCtrl)
       (value : PropertyValue) (auto : Bool) (ctrl : AsiControlType) (prop : Property)
       (e : PropertyError),
      c.get_controller name = some (ctrl, prop) → prop.validate value = .error e →
      AsiDeviceCtrl.set_value c env handle name value auto
        = (.error (.propertyError name e), [])) ∧
    (∀ (s : AsiState) (env : NativeEnv) (value : PropertyValue) (auto : Bool)
       (prop : Property) (e : PropertyError),
      s.caps (.sensor .pixelFormat) = some (.invalid, prop) →
      prop.validate value = .error e →
      (AsiHandle.set_property s env (.sensor .pixelFormat) value auto).result
          = .error (.propertyError (.sensor .pixelFormat) e) ∧
      (AsiHandle.set_property s env (.sensor .pixelFormat) value auto).trace = []) := by
  constructor
  · intro c env handle name value auto ctrl prop e hc hv
    simp [AsiDeviceCtrl.set_value, hc, hv]
  · intro s env value auto prop e hc hv
    constructor <;> simp [AsiHandle.set_property, hc, hv]

/-- Witness for C3 (amended): an out-of-range cooler-target value is
rejected with a typed error and no native call. -/
theorem set_value_validates_before_native_witness :
    devCtrlFix.get_controller (.device .coolerTemp)
        = some (.targetTemp, Property.new (.int (-20) 20 1 0) false false) ∧
    (Property.new (.int (-20) 20 1 0) false false).validate (.int 21) = .error .outOfBounds ∧
    AsiDeviceCtrl.set_value devCtrlFix envOk 7 (.device .coolerTemp) (.int 21) false
        = (.error (.propertyError (.device .coolerTemp) .outOfBounds), []) :=
  ⟨by decide, by decide,
   set_value_validates_before_native.1 devCtrlFix envOk 7 (.device .coolerTemp) (.int 21)
     false .targetTemp (Property.new (.int (-20) 20 1 0) false false) .outOfBounds
     (by decide) (by decide)⟩

/-- **C5**: temperature controls scale by tenths in both directions.
Writing `Float v` to a temperature-backed control issues exactly one
native write carrying the truncation of `v * 10` (the Rust `as i64` cast,
which truncates toward zero within the `i64` range); reading a native
value `n` yields `n * (1/10) = n / 10`.  Concretely `-10` scales to the
native value `-100` and native `150` reads back as `15`. -/
theorem temperature_scaling_set_and_get :
    (∀ (s : AsiState) (env : NativeEnv) (prop : GenCamCtrl) (p : Property) (v : Rat)
       (auto : Bool),
      s.caps prop = some (.temperature, p) →
      (AsiHandle.set_property s env prop (.float v) auto).trace
        = [.setControlValue .temperature (f64toI64 (v * 10))
             (if auto then ASI_BOOL_ASI_TRUE else ASI_BOOL_ASI_FALSE)]) ∧
    (∀ (s : AsiState) (env : NativeEnv) (prop : GenCamCtrl) (p : Property) (n a : Int),
      s.caps prop = some (.temperature, p) →
      env.getControlValue .temperature = (ASI_ERROR_CODE_ASI_SUCCESS, n, a) →
      (AsiHandle.get_property s env prop).result
        = .ok (.float ((n : Rat) * (1 / 10)), a = ASI_BOOL_ASI_TRUE)) ∧
    (∀ v : Rat, -(2 ^ 63 : Rat) ≤ v * 10 → v * 10 ≤ (2 ^ 63 : Rat) - 1 →
      f64toI64 (v * 10) = ratTrunc (v * 10)) ∧
    f64toI64 ((-10 : Rat) * 10) = -100 ∧
    ((150 : Rat) * (1 / 10)) = 15 ∧
    (∀ n : Int, ((n : Rat) * (1 / 10)) = (n : Rat) / 10) := by
  refine ⟨?_, ?_, ?_, ?_, by norm_num, fun n => by ring⟩
  · intro s env prop p v auto hcaps
    simp [AsiHandle.set_property, hcaps, set_control_value, PropertyValue.toFloat64]
  · intro s env prop p n a hcaps henv
    simp [AsiHandle.get_property, hcaps, get_control_value, henv]
  · intro v h1 h2
    rw [f64toI64, if_neg (not_lt.2 h1), if_neg (not_lt.2 h2)]
  · norm_num [f64toI64, ratTrunc]

/-- Witness for C5: writing `-10.0` issues a native write of `-100`;
reading native `150` yields `15.0`. -/
theorem temperature_scaling_set_and_get_witness :
    (AsiHandle.set_property baseState envOk (.device .temperature) (.float (-10)) false).trace
        = [.setControlValue .temperature (-100) ASI_BOOL_ASI_FALSE] ∧
    (AsiHandle.get_property baseState envFail (.device .temperature)).result
        = .ok (.float 15, false) := by
  constructor
  · have h := temperature_scaling_set_and_get.1 baseState envOk (.device .temperature)
      (Property.new (.float (-30) 30 (1 / 10) 0) true false) (-10) false rfl
    rw [h]
    norm_num [f64toI64, ratTrunc, ASI_BOOL_ASI_FALSE]
  · have h := temperature_scaling_set_and_get.2.1 baseState envFail (.device .temperature)
      (Property.new (.float (-30) 30 (1 / 10) 0) true false) 150 0 rfl rfl
    rw [h]
    norm_num [ASI_BOOL_ASI_TRUE]

/-- The rollback path of `CameraUnitASI::set_roi`: when validation passes,
the device reads succeed, the new-format write succeeds and the
start-position write fails, the function issues the natives in order
ending with a format write carrying the previous (device-read) values, and
— when that restore write succeeds — returns `Ok` with the requested
(adjusted) ROI cached. -/
theorem CameraUnitASI.set_roi_rollback_spec
    (s : CUState) (env : NativeEnv) (roi aroi : CURoi) (w h b f x0 y0 : Int)
    (fmt : ASIImageFormat)
    (ha : CameraUnitASI.adjustRoi s.maxWidth s.maxHeight roi = aroi)
    (hbin : roi.bin_x = roi.bin_y)
    (hbin1 : ¬roi.bin_x < 1)
    (hsup : roi.bin_x ∈ s.supportedBins)
    (hwidth : ¬aroi.width > s.maxWidth / s.roi.bin_x)
    (hheight : ¬aroi.height > s.maxHeight / s.roi.bin_y)
    (h120 : ¬(¬s.isUsb3Camera ∧ s.nameContainsASI120 ∧ aroi.width * aroi.height % 1024 ≠ 0))
    (hcap : s.capturing = false)
    (hget : env.getROIFormat = (ASI_ERROR_CODE_ASI_SUCCESS, w, h, b, f))
    (hparse : ASIImageFormat.from_u32 f = some fmt)
    (hpos : env.getStartPos = (ASI_ERROR_CODE_ASI_SUCCESS, x0, y0))
    (hsetfmt : env.setROIFormat ↑aroi.width ↑aroi.height ↑aroi.bin_x fmt.code
        = ASI_ERROR_CODE_ASI_SUCCESS)
    (hsetpos :
      env.setStartPos ↑aroi.x_min ↑aroi.y_min = ASI_ERROR_CODE_ASI_ERROR_INVALID_ID ∨
      env.setStartPos ↑aroi.x_min ↑aroi.y_min = ASI_ERROR_CODE_ASI_ERROR_CAMERA_CLOSED ∨
      env.setStartPos ↑aroi.x_min ↑aroi.y_min = ASI_ERROR_CODE_ASI_ERROR_OUTOF_BOUNDARY) :
    (CameraUnitASI.set_roi s env roi).trace
        = [.getROIFormat, .getStartPos,
           .setROIFormat ↑aroi.width ↑aroi.height ↑aroi.bin_x fmt.code,
           .setStartPos ↑aroi.x_min ↑aroi.y_min,
           .setROIFormat w h b fmt.code] ∧
      (env.setROIFormat w h b fmt.code = ASI_ERROR_CODE_ASI_SUCCESS →
        (CameraUnitASI.set_roi s env roi).result = .ok aroi ∧
        (CameraUnitASI.set_roi s env roi).state = { s with roi := aroi }) := by
  have hgetf : CameraUnitASI.get_roi_format s env = (.ok ⟨w, h, b, fmt⟩, [.getROIFormat]) := by
    unfold CameraUnitASI.get_roi_format
    rw [hget]
    simp [hparse, ASI_ERROR_CODE_ASI_SUCCESS, ASI_ERROR_CODE_ASI_ERROR_INVALID_ID,
      ASI_ERROR_CODE_ASI_ERROR_CAMERA_CLOSED]
  have hgetp : CameraUnitASI.get_start_pos s env = (.ok (x0, y0), [.getStartPos]) := by
    unfold CameraUnitASI.get_start_pos
    rw [hpos]
    simp [ASI_ERROR_CODE_ASI_SUCCESS, ASI_ERROR_CODE_ASI_ERROR_INVALID_ID,
      ASI_ERROR_CODE_ASI_ERROR_CAMERA_CLOSED]
  have hsetf1 : CameraUnitASI.set_roi_format s env ⟨↑aroi.width, ↑aroi.height, ↑aroi.bin_x, fmt⟩
      = (.ok (), [.setROIFormat ↑aroi.width ↑aroi.height ↑aroi.bin_x fmt.code]) := by
    unfold CameraUnitASI.set_roi_format
    rw [hsetfmt]
    simp [ASI_ERROR_CODE_ASI_SUCCESS, ASI_ERROR_CODE_ASI_ERROR_INVALID_ID,
      ASI_ERROR_CODE_ASI_ERROR_CAMERA_CLOSED]
  have hsp : ∃ e, CameraUnitASI.set_start_pos s env ↑aroi.x_min ↑aroi.y_min
      = (.error e, [.setStartPos ↑aroi.x_min ↑aroi.y_min]) := by
    have hnn : ¬((↑aroi.x_min : Int) < 0 ∨ (↑aroi.y_min : Int) < 0) := by
      push_neg
      exact ⟨Int.natCast_nonneg _, Int.natCast_nonneg _⟩
    rcases hsetpos with hc | hc | hc
    · refine ⟨.invalidId s.id, ?_⟩
      unfold CameraUnitASI.set_start_pos
      rw [if_neg hnn, hc]
      simp [ASI_ERROR_CODE_ASI_ERROR_INVALID_ID]
    · refine ⟨.cameraClosed, ?_⟩
      unfold CameraUnitASI.set_start_pos
      rw [if_neg hnn, hc]
      simp [ASI_ERROR_CODE_ASI_ERROR_INVALID_ID, ASI_ERROR_CODE_ASI_ERROR_CAMERA_CLOSED]
    · refine ⟨.outOfBounds "", ?_⟩
      unfold CameraUnitASI.set_start_pos
      rw [if_neg hnn, hc]
      simp [ASI_ERROR_CODE_ASI_ERROR_INVALID_ID, ASI_ERROR_CODE_ASI_ERROR_CAMERA_CLOSED,
        ASI_ERROR_CODE_ASI_ERROR_OUTOF_BOUNDARY]
  have hrbtrace : (CameraUnitASI.set_roi_format s env ⟨w, h, b, fmt⟩).2
      = [.setROIFormat w h b fmt.code] := by
    unfold CameraUnitASI.set_roi_format
    dsimp only
    split_ifs <;> rfl
  obtain ⟨e, hspe⟩ := hsp
  have hmain : ∀ r t, CameraUnitASI.set_roi_format s env ⟨w, h, b, fmt⟩ = (r, t) →
      CameraUnitASI.set_roi s env roi
        = (match r with
           | .error er =>
               ⟨.error er, s,
                [NativeCall.getROIFormat, .getStartPos,
                 .setROIFormat ↑aroi.width ↑aroi.height ↑aroi.bin_x fmt.code,
                 .setStartPos ↑aroi.x_min ↑aroi.y_min] ++ t⟩
           | .ok _ =>
               ⟨.ok aroi, { s with roi := aroi },
                [NativeCall.getROIFormat, .getStartPos,
                 .setROIFormat ↑aroi.width ↑aroi.height ↑aroi.bin_x fmt.code,
                 .setStartPos ↑aroi.x_min ↑aroi.y_min] ++ t⟩) := by
    intro r t hrb
    unfold CameraUnitASI.set_roi
    rw [if_neg (by simp [hbin]), if_neg hbin1, if_neg (not_not_intro hsup)]
    simp only [ha]
    rw [if_neg (not_or.2 ⟨hwidth, hheight⟩), if_neg h120, if_neg (by simp [hcap])]
    rw [hgetf]
    simp only
    rw [hgetp]
    simp only
    rw [hsetf1]
    simp only
    rw [hspe]
    simp only
    rw [hrb]
    cases r <;> simp
  constructor
  · rcases hrb : CameraUnitASI.set_roi_format s env ⟨w, h, b, fmt⟩ with ⟨r, t⟩
    have ht : t = [.setROIFormat w h b fmt.code] := by
      have := hrbtrace
      rw [hrb] at this
      exact this
    rw [hmain r t hrb]
    cases r <;> simp [ht]
  · intro h0
    have hrbok : CameraUnitASI.set_roi_format s env ⟨w, h, b, fmt⟩
        = (.ok (), [.setROIFormat w h b fmt.code]) := by
      unfold CameraUnitASI.set_roi_format
      rw [h0]
      simp [ASI_ERROR_CODE_ASI_SUCCESS, ASI_ERROR_CODE_ASI_ERROR_INVALID_ID,
        ASI_ERROR_CODE_ASI_ERROR_CAMERA_CLOSED]
    rw [hmain _ _ hrbok]
    exact ⟨rfl, rfl⟩

/-- **C4**: in `CameraUnitASI::set_roi`, if the native start-position
write fails (any of its recognized failure codes) after the native
ROI-format write already succeeded, the previous ROI format — the values
read from the device at entry — is written back: the call sequence always
ends with a format write carrying the old width/height/bin/format. -/
theorem set_roi_rollback_restores_old_format
    (s : CUState) (env : NativeEnv) (roi aroi : CURoi) (w h b f x0 y0 : Int)
    (fmt : ASIImageFormat)
    (ha : CameraUnitASI.adjustRoi s.maxWidth s.maxHeight roi = aroi)
    (hbin : roi.bin_x = roi.bin_y)
    (hbin1 : ¬roi.bin_x < 1)
    (hsup : roi.bin_x ∈ s.supportedBins)
    (hwidth : ¬aroi.width > s.maxWidth / s.roi.bin_x)
    (hheight : ¬aroi.height > s.maxHeight / s.roi.bin_y)
    (h120 : ¬(¬s.isUsb3Camera ∧ s.nameContainsASI120 ∧ aroi.width * aroi.height % 1024 ≠ 0))
    (hcap : s.capturing = false)
    (hget : env.getROIFormat = (ASI_ERROR_CODE_ASI_SUCCESS, w, h, b, f))
    (hparse : ASIImageFormat.from_u32 f = some fmt)
    (hpos : env.getStartPos = (ASI_ERROR_CODE_ASI_SUCCESS, x0, y0))
    (hsetfmt : env.setROIFormat ↑aroi.width ↑aroi.height ↑aroi.bin_x fmt.code
        = ASI_ERROR_CODE_ASI_SUCCESS)
    (hsetpos :
      env.setStartPos ↑aroi.x_min ↑aroi.y_min = ASI_ERROR_CODE_ASI_ERROR_INVALID_ID ∨
      env.setStartPos ↑aroi.x_min ↑aroi.y_min = ASI_ERROR_CODE_ASI_ERROR_CAMERA_CLOSED ∨
      env.setStartPos ↑aroi.x_min ↑aroi.y_min = ASI_ERROR_CODE_ASI_ERROR_OUTOF_BOUNDARY) :
    (CameraUnitASI.set_roi s env roi).trace
        = [.getROIFormat, .getStartPos,
           .setROIFormat ↑aroi.width ↑aroi.height ↑aroi.bin_x fmt.code,
           .setStartPos ↑aroi.x_min ↑aroi.y_min,
           .setROIFormat w h b fmt.code] :=
  (CameraUnitASI.set_roi_rollback_spec s env roi aroi w h b f x0 y0 fmt ha hbin hbin1 hsup
    hwidth hheight h120 hcap hget hparse hpos hsetfmt hsetpos).1

/-- Witness for C4: concrete rollback — the position write fails with
`OUTOF_BOUNDARY`, and the final call restores the old 128x64 bin-2 RAW16
format. -/
theorem set_roi_rollback_restores_old_format_witness :
    envRoiFail.setStartPos 8 8 = ASI_ERROR_CODE_ASI_ERROR_OUTOF_BOUNDARY ∧
    (CameraUnitASI.set_roi cuState envRoiFail ⟨8, 8, 64, 32, 1, 1⟩).trace
        = [.getROIFormat, .getStartPos, .setROIFormat 64 32 1 2, .setStartPos 8 8,
           .setROIFormat 128 64 2 2] := by
  refine ⟨by decide, ?_⟩
  have h := set_roi_rollback_restores_old_format cuState envRoiFail ⟨8, 8, 64, 32, 1, 1⟩
    ⟨8, 8, 64, 32, 1, 1⟩ 128 64 2 2 0 0 .imageRAW16 (by decide) rfl (by decide) (by decide)
    (by decide) (by decide) (by decide) rfl (by decide) (by decide) (by decide) (by decide)
    (Or.inr (Or.inr (by decide)))
  simpa using h

/-- **C9**: on the rollback path (position write failed, old format
restored successfully), `set_roi` nevertheless returns `Ok` and caches the
newly requested (adjusted) ROI, while the last native call restored the
old format on the device — the cache no longer matches the device. -/
theorem set_roi_rollback_returns_ok_and_caches_new
    (s : CUState) (env : NativeEnv) (roi aroi : CURoi) (w h b f x0 y0 : Int)
    (fmt : ASIImageFormat)
    (ha : CameraUnitASI.adjustRoi s.maxWidth s.maxHeight roi = aroi)
    (hbin : roi.bin_x = roi.bin_y)
    (hbin1 : ¬roi.bin_x < 1)
    (hsup : roi.bin_x ∈ s.supportedBins)
    (hwidth : ¬aroi.width > s.maxWidth / s.roi.bin_x)
    (hheight : ¬aroi.height > s.maxHeight / s.roi.bin_y)
    (h120 : ¬(¬s.isUsb3Camera ∧ s.nameContainsASI120 ∧ aroi.width * aroi.height % 1024 ≠ 0))
    (hcap : s.capturing = false)
    (hget : env.getROIFormat = (ASI_ERROR_CODE_ASI_SUCCESS, w, h, b, f))
    (hparse : ASIImageFormat.from_u32 f = some fmt)
    (hpos : env.getStartPos = (ASI_ERROR_CODE_ASI_SUCCESS, x0, y0))
    (hsetfmt : env.setROIFormat ↑aroi.width ↑aroi.height ↑aroi.bin_x fmt.code
        = ASI_ERROR_CODE_ASI_SUCCESS)
    (hsetpos :
      env.setStartPos ↑aroi.x_min ↑aroi.y_min = ASI_ERROR_CODE_ASI_ERROR_INVALID_ID ∨
      env.setStartPos ↑aroi.x_min ↑aroi.y_min = ASI_ERROR_CODE_ASI_ERROR_CAMERA_CLOSED ∨
      env.setStartPos ↑aroi.x_min ↑aroi.y_min = ASI_ERROR_CODE_ASI_ERROR_OUTOF_BOUNDARY)
    (hrestore : env.setROIFormat w h b fmt.code = ASI_ERROR_CODE_ASI_SUCCESS) :
    (CameraUnitASI.set_roi s env roi).result = .ok aroi ∧
    (CameraUnitASI.set_roi s env roi).state.roi = aroi ∧
    (CameraUnitASI.set_roi s env roi).trace.getLast?
        = some (.setROIFormat w h b fmt.code) := by
  have spec := CameraUnitASI.set_roi_rollback_spec s env roi aroi w h b f x0 y0 fmt ha hbin
    hbin1 hsup hwidth hheight h120 hcap hget hparse hpos hsetfmt hsetpos
  obtain ⟨hres, hstate⟩ := spec.2 hrestore
  refine ⟨hres, ?_, ?_⟩
  · rw [hstate]
  · rw [spec.1]
    rfl

/-- Witness for C9: the caller receives `Ok` with the 64x32 bin-1 ROI
cached, while the device was restored to the 128x64 bin-2 format. -/
theorem set_roi_rollback_returns_ok_and_caches_new_witness :
    (CameraUnitASI.set_roi cuState envRoiFail ⟨8, 8, 64, 32, 1, 1⟩).result
        = .ok ⟨8, 8, 64, 32, 1, 1⟩ ∧
    (CameraUnitASI.set_roi cuState envRoiFail ⟨8, 8, 64, 32, 1, 1⟩).state.roi.width = 64 ∧
    (CameraUnitASI.set_roi cuState envRoiFail ⟨8, 8, 64, 32, 1, 1⟩).trace.getLast?
        = some (.setROIFormat 128 64 2 2) := by
  have h := set_roi_rollback_returns_ok_and_caches_new cuState envRoiFail ⟨8, 8, 64, 32, 1, 1⟩
    ⟨8, 8, 64, 32, 1, 1⟩ 128 64 2 2 0 0 .imageRAW16 (by decide) rfl (by decide) (by decide)
    (by decide) (by decide) (by decide) rfl (by decide) (by decide) (by decide) (by decide)
    (Or.inr (Or.inr (by decide))) (by decide)
  refine ⟨h.1, ?_, ?_⟩
  · rw [h.2.1]
  · simpa using h.2.2
